import Mathlib

/-!
Shallow embedding of the CredSuvidha brand-kit generators
(`assets/brandkit/generate_brandkit_pdf.py` and
`assets/brandkit/generate_brandkit_pptx.py`) and a verification of the
layout claims of the accompanying specification.

Conventions of the embedding:
* Python floats are modelled as exact rationals (`ℚ`).  Every numeric
  literal appearing in the two scripts is an exact decimal, so the
  rational arithmetic agrees with float arithmetic on all quantities the
  theorems below talk about.
* Each drawing call issued by a generator is recorded, in program order,
  as one constructor of an operation type (`Pdf.CanvasOp`, `Pdf.Flow`,
  `Pptx.SlideOp`).  Stateful canvas settings (current fill color, current
  font) are folded into the drawing operation they apply to.
* The rendering library itself (reportlab / python-pptx) is an external
  collaborator and is not modelled beyond the arguments handed to it;
  paragraph style sheets are referenced by their style names.
* File-system effects are modelled by explicit parameters: a Boolean
  `logo_exists` for `os.path.exists(LOGO_PATH)`, a `TokenFile` value for
  the outcome of opening and JSON-parsing `brand-tokens.json`, and a
  `date` string for `datetime.now().strftime('%B %Y')`.
-/

namespace Brandkit

/-- A 24-bit RGB color value, as produced by reportlab's `HexColor` and
python-pptx's `RGBColor`. -/
structure RGB where
  r : ℕ
  g : ℕ
  b : ℕ
deriving DecidableEq

/-- Value of one hexadecimal digit character, as in Python's `int(s, 16)`. -/
def hexVal (c : Char) : ℕ :=
  if '0' ≤ c ∧ c ≤ '9' then c.toNat - '0'.toNat
  else if 'a' ≤ c ∧ c ≤ 'f' then c.toNat - 'a'.toNat + 10
  else if 'A' ≤ c ∧ c ≤ 'F' then c.toNat - 'A'.toNat + 10
  else 0

/-- Parse a `"#rrggbb"` hex color string into an RGB triple.  Models both
reportlab's `HexColor('#rrggbb')` and the pptx generator's inline
`int(hex_code[1:3], 16), int(hex_code[3:5], 16), int(hex_code[5:7], 16)`. -/
def parseHexColor (s : String) : RGB :=
  match s.data with
  | _ :: a :: b :: c :: d :: e :: f :: _ =>
      ⟨16 * hexVal a + hexVal b, 16 * hexVal c + hexVal d, 16 * hexVal e + hexVal f⟩
  | _ => ⟨0, 0, 0⟩

/-- Python's `str.upper()`, character by character. -/
def pyUpper (s : String) : String :=
  ⟨s.data.map Char.toUpper⟩

/-- Python's `int()` applied to a rational: truncation toward zero. -/
def pyInt (q : ℚ) : ℤ :=
  if 0 ≤ q then ⌊q⌋ else -⌊-q⌋

/-- Relative path of the logo image asset (`PROJECT_DIR/logo.png`); OS path
resolution is out of scope, only the identity of the file matters. -/
def LOGO_PATH : String := "logo.png"

/-- Placeholder JSON value type for the parsed contents of
`brand-tokens.json`.  The PDF generator binds the parsed value to the
module-level `tokens` name and never reads it again, so no structure
beyond "some JSON value" is needed. -/
inductive Json where
  | null
  | bool (b : Bool)
  | num (q : ℚ)
  | str (s : String)
  | arr (elems : List Json)
  | obj (fields : List (String × Json))

/-- Outcome of opening and JSON-parsing the brand-token file: the file can
be absent (Python `FileNotFoundError` from `open`), present but malformed
(`json.JSONDecodeError` from `json.load`), or present and valid. -/
inductive TokenFile where
  | absent
  | malformed
  | valid (tokens : Json)

/-- Errors with which a generator run can abort. -/
inductive BuildError where
  | fileNotFound
  | jsonDecode
deriving DecidableEq

namespace Pdf

/-! Embedding of `generate_brandkit_pdf.py`.  All lengths are in points. -/

/-- reportlab `inch` unit (72 points). -/
def inch : ℚ := 72

/-- reportlab `mm` unit (72 / 25.4 points). -/
def mm : ℚ := 360 / 127

/-- A4 page width, `210 * mm` (reportlab `A4[0]`). -/
def PAGE_WIDTH : ℚ := 210 * mm

/-- A4 page height, `297 * mm` (reportlab `A4[1]`). -/
def PAGE_HEIGHT : ℚ := 297 * mm

def MARGIN_LEFT : ℚ := 0.75 * inch

def MARGIN_RIGHT : ℚ := 0.75 * inch

def MARGIN_TOP : ℚ := 0.9 * inch

def MARGIN_BOTTOM : ℚ := 0.85 * inch

def CONTENT_WIDTH : ℚ := PAGE_WIDTH - MARGIN_LEFT - MARGIN_RIGHT

/-- reportlab `HexColor`. -/
def HexColor (s : String) : RGB := parseHexColor s

def NAVY_DARK : RGB := HexColor "#142857"

def NAVY : RGB := HexColor "#193f8f"

def BLUE_DEEP : RGB := HexColor "#1747b6"

def BLUE : RGB := HexColor "#1458e1"

def BLUE_PRIMARY : RGB := HexColor "#1a6ef5"

def BLUE_BRIGHT : RGB := HexColor "#338dff"

def BLUE_LIGHT : RGB := HexColor "#59b0ff"

def BLUE_LIGHTER : RGB := HexColor "#8ecdff"

def BLUE_PALE : RGB := HexColor "#bce0ff"

def BLUE_WASH : RGB := HexColor "#d9edff"

def BLUE_TINT : RGB := HexColor "#eef7ff"

def ACCENT_DARK : RGB := HexColor "#c2410c"

def ACCENT : RGB := HexColor "#ea580c"

def ACCENT_PRI : RGB := HexColor "#f97316"

def ACCENT_LT : RGB := HexColor "#fb923c"

def EMERALD_DK : RGB := HexColor "#059669"

def EMERALD : RGB := HexColor "#10b981"

def EMERALD_LT : RGB := HexColor "#34d399"

def LOGO_NAVY : RGB := HexColor "#1B3A5C"

def LOGO_GOLD : RGB := HexColor "#C5961E"

def LOGO_BG : RGB := HexColor "#FAF6F1"

def TEXT_DARK : RGB := HexColor "#1e293b"

def TEXT_GRAY : RGB := HexColor "#64748b"

def TEXT_MUTED : RGB := HexColor "#94a3b8"

def BORDER : RGB := HexColor "#e2e8f0"

def BG_ALT : RGB := HexColor "#f8fafc"

def WHITE : RGB := HexColor "#FFFFFF"

/-- One drawing call on a reportlab canvas.  The canvas state set by
`setFillColor` / `setStrokeColor` / `setFont` / `setLineWidth` before a
drawing call is folded into that call's fields. -/
inductive CanvasOp where
  | rect (x y w h : ℚ) (fill : RGB)
  | roundRect (x y w h radius : ℚ) (fill : RGB)
  | line (x1 y1 x2 y2 : ℚ) (stroke : RGB) (lineWidth : ℚ)
  | text (x y : ℚ) (font : String) (size : ℚ) (color : RGB) (s : String)
  | textCentred (x y : ℚ) (font : String) (size : ℚ) (color : RGB) (s : String)
  | textRight (x y : ℚ) (font : String) (size : ℚ) (color : RGB) (s : String)
  | image (path : String) (x y w h : ℚ)
deriving DecidableEq

/-- Whether a canvas operation draws an image (`canvas.drawImage`). -/
def CanvasOp.isImage : CanvasOp → Bool
  | .image _ _ _ _ _ => true
  | _ => false

/-- Text payload of a canvas operation, if any. -/
def CanvasOp.textOf : CanvasOp → Option String
  | .text _ _ _ _ _ s => some s
  | .textCentred _ _ _ _ _ s => some s
  | .textRight _ _ _ _ _ s => some s
  | _ => none

/-- Geometry-preserving projection: replaces every text payload with `""`
but keeps every position, size, color, font and font size. -/
def CanvasOp.scrub : CanvasOp → CanvasOp
  | .text x y f sz c _ => .text x y f sz c ""
  | .textCentred x y f sz c _ => .textCentred x y f sz c ""
  | .textRight x y f sz c _ => .textRight x y f sz c ""
  | op => op

/-- Canvas operations of `draw_cover_page` (lines 152-217), in program
order.  `logo_exists` models `os.path.exists(LOGO_PATH)`; `date` models
`datetime.now().strftime('%B %Y')`. -/
def draw_cover_page (logo_exists : Bool) (date : String) : List CanvasOp :=
  let w := PAGE_WIDTH
  let h := PAGE_HEIGHT
  let title_y := h * 0.68
  let badge_y := title_y - 65
  let info_y := h * 0.35
  [CanvasOp.rect 0 (h * 0.45) w (h * 0.55) NAVY_DARK,
   CanvasOp.rect 0 (h * 0.45) (w * 0.5) 4 BLUE_PRIMARY,
   CanvasOp.rect (w * 0.5) (h * 0.45) (w * 0.5) 4 LOGO_GOLD] ++
  (if logo_exists then
    [CanvasOp.image LOGO_PATH MARGIN_LEFT (h * 0.82) (2.5 * inch) (1.3 * inch)]
   else []) ++
  [CanvasOp.text MARGIN_LEFT title_y "Helvetica-Bold" 32 WHITE "Brand Kit",
   CanvasOp.text MARGIN_LEFT (title_y - 30) "Helvetica" 16 BLUE_LIGHT
     "Visual Identity & Brand Guidelines",
   CanvasOp.roundRect MARGIN_LEFT badge_y 120 22 4 BLUE_PRIMARY,
   CanvasOp.text (MARGIN_LEFT + 12) (badge_y + 7) "Helvetica-Bold" 9 WHITE "VERSION 1.0",
   CanvasOp.text MARGIN_LEFT info_y "Helvetica" 11 TEXT_GRAY "Company: CredSuvidha",
   CanvasOp.text MARGIN_LEFT (info_y - 20) "Helvetica" 11 TEXT_GRAY ("Date: " ++ date),
   CanvasOp.text MARGIN_LEFT (info_y - 40) "Helvetica" 11 TEXT_GRAY
     "Domain: www.credsuvidha.com",
   CanvasOp.text MARGIN_LEFT (info_y - 60) "Helvetica" 11 TEXT_GRAY
     "Industry: Financial Services (Fintech)",
   CanvasOp.textCentred (w / 2) (h * 0.08) "Helvetica-Bold" 14 LOGO_GOLD
     "Trusted Partner. Swift Solutions.",
   CanvasOp.rect 0 0 w 30 NAVY_DARK,
   CanvasOp.textCentred (w / 2) 11 "Helvetica" 7 BLUE_LIGHT
     "© 2025 CredSuvidha. All rights reserved. | www.credsuvidha.com"]

/-- Canvas operations of `draw_header_footer` (lines 220-256), the frame
drawn on every content page (`onLaterPages`).  `page` models `doc.page`. -/
def draw_header_footer (logo_exists : Bool) (page : ℕ) : List CanvasOp :=
  let w := PAGE_WIDTH
  let h := PAGE_HEIGHT
  [CanvasOp.line MARGIN_LEFT (h - 0.55 * inch) (w / 2) (h - 0.55 * inch) BLUE_PRIMARY 1.5,
   CanvasOp.line (w / 2) (h - 0.55 * inch) (w - MARGIN_RIGHT) (h - 0.55 * inch) LOGO_GOLD 1.5,
   CanvasOp.text MARGIN_LEFT (h - 0.48 * inch) "Helvetica" 8 TEXT_GRAY
     "CredSuvidha Brand Kit"] ++
  (if logo_exists then
    [CanvasOp.image LOGO_PATH (w - MARGIN_RIGHT - 1.0 * inch) (h - 0.53 * inch)
       (0.95 * inch) (0.42 * inch)]
   else []) ++
  [CanvasOp.rect 0 0 w (0.4 * inch) NAVY_DARK,
   CanvasOp.text (0.3 * inch) (0.15 * inch) "Helvetica" 7 BLUE_LIGHT
     "CredSuvidha — Trusted Partner. Swift Solutions.",
   CanvasOp.textRight (w - 0.3 * inch) (0.15 * inch) "Helvetica" 7 LOGO_GOLD
     "www.credsuvidha.com",
   CanvasOp.textCentred (w / 2) (0.15 * inch) "Helvetica" 7 WHITE (s!"Page {page}")]

/-- One element of a reportlab `Drawing` (graphics shape). -/
inductive GElem where
  | rect (x y w h : ℚ) (fill : Option RGB) (stroke : Option RGB) (strokeWidth : ℚ)
  | str (x y : ℚ) (text : String) (font : String) (size : ℚ) (fill : RGB)
deriving DecidableEq

/-- A reportlab `Drawing` flowable: a fixed-size canvas holding shapes. -/
structure DrawingSpec where
  w : ℚ
  h : ℚ
  elems : List GElem
deriving DecidableEq

/-- One cell of a reportlab `Table`: a plain string, a `Paragraph` (text
plus style-sheet name), a `Drawing`, or an `Image`. -/
inductive Cell where
  | str (s : String)
  | para (s : String) (style : String)
  | draw (d : DrawingSpec)
  | img (path : String) (w h : ℚ) (hAlign : String)
deriving DecidableEq

/-- Whether a table cell embeds an image flowable. -/
def Cell.isImg : Cell → Bool
  | .img _ _ _ _ => true
  | _ => false

/-- One `TableStyle` command.  Cell ranges are recorded exactly as written
in the source, as `(col, row)` pairs where negative indices count from the
end of the table (reportlab convention). -/
inductive SCmd where
  | fontName (c0 r0 c1 r1 : ℤ) (name : String)
  | fontSize (c0 r0 c1 r1 : ℤ) (size : ℚ)
  | textColor (c0 r0 c1 r1 : ℤ) (color : RGB)
  | background (c0 r0 c1 r1 : ℤ) (color : RGB)
  | align (c0 r0 c1 r1 : ℤ) (a : String)
  | valign (c0 r0 c1 r1 : ℤ) (a : String)
  | topPadding (c0 r0 c1 r1 : ℤ) (v : ℚ)
  | bottomPadding (c0 r0 c1 r1 : ℤ) (v : ℚ)
  | leftPadding (c0 r0 c1 r1 : ℤ) (v : ℚ)
  | rightPadding (c0 r0 c1 r1 : ℤ) (v : ℚ)
  | grid (c0 r0 c1 r1 : ℤ) (w : ℚ) (color : RGB)
  | box (c0 r0 c1 r1 : ℤ) (w : ℚ) (color : RGB)
  | lineAbove (c0 r0 c1 r1 : ℤ) (w : ℚ) (color : RGB)
  | rowBackgrounds (c0 r0 c1 r1 : ℤ) (colors : List RGB)
  | roundedCorners (radii : List ℚ)
deriving DecidableEq

/-- A reportlab `Table` flowable: row-major cell data, column widths, the
number of header rows repeated across page breaks, and its style. -/
structure TableSpec where
  data : List (List Cell)
  colWidths : List ℚ
  repeatRows : ℕ
  style : List SCmd
deriving DecidableEq

/-- One flowable appended to the platypus `story`. -/
inductive Flow where
  | pageBreak
  | para (s : String) (style : String)
  | spacer (w h : ℚ)
  | hr (thickness : ℚ) (color : RGB) (spaceAfter : ℚ)
  | table (t : TableSpec)
  | draw (d : DrawingSpec)
deriving DecidableEq

/-- Whether a flowable contains an image (directly or inside a table cell). -/
def Flow.hasImage : Flow → Bool
  | .table t => t.data.any (fun row => row.any Cell.isImg)
  | _ => false

/-- Resolve a possibly negative reportlab row index against the table's
row count (negative indices count from the end). -/
def resolveRow (nrows : ℕ) (r : ℤ) : ℤ :=
  if r < 0 then nrows + r else r

/-- ReportLab semantics of the `ROWBACKGROUNDS` style command: within the
command's row range the color list is cycled row by row, starting at the
range's first row.  Returns the effective background of table row `row`
(absolute, 0-based), if any command covers it. -/
def applied_row_background (t : TableSpec) (row : ℕ) : Option RGB :=
  t.style.foldl (fun acc c =>
    match c with
    | .rowBackgrounds _ r0 _ r1 colors =>
        let lo := resolveRow t.data.length r0
        let hi := resolveRow t.data.length r1
        if lo ≤ (row : ℤ) ∧ (row : ℤ) ≤ hi then
          colors.get? (((row : ℤ) - lo).toNat % colors.length)
        else acc
    | _ => acc) none

/-- Embedding of `create_color_swatch_table` (lines 259-287): a header row
followed by one data row per `(name, hex_code, usage)` triple, carrying a
swatch drawing, the name, the hex code string exactly as stored, and the
usage note.  The `swatch_size` parameter defaults to 14 in the source and
every call site uses the default, so it is fixed here. -/
def create_color_swatch_table (colors_list : List (String × String × String)) : TableSpec :=
  let swatch_size : ℚ := 14
  { data := [Cell.str "Swatch", Cell.str "Name", Cell.str "Hex Code", Cell.str "Usage"] ::
      colors_list.map (fun t =>
        [Cell.draw ⟨swatch_size + 4, swatch_size + 4,
            [GElem.rect 2 2 swatch_size swatch_size (some (HexColor t.2.1))
               (some (HexColor "#D1D5DB")) 0.5]⟩,
         Cell.str t.1, Cell.str t.2.1, Cell.str t.2.2]),
    colWidths := [0.5 * inch, 1.8 * inch, 1.2 * inch, CONTENT_WIDTH - 3.5 * inch],
    repeatRows := 1,
    style := [
      .fontName 0 0 (-1) 0 "Helvetica-Bold",
      .fontSize 0 0 (-1) 0 9,
      .textColor 0 0 (-1) 0 WHITE,
      .background 0 0 (-1) 0 NAVY,
      .align 0 0 (-1) 0 "CENTER",
      .fontName 0 1 (-1) (-1) "Helvetica",
      .fontSize 0 1 (-1) (-1) 9,
      .textColor 0 1 (-1) (-1) TEXT_DARK,
      .valign 0 0 (-1) (-1) "MIDDLE",
      .topPadding 0 0 (-1) (-1) 6,
      .bottomPadding 0 0 (-1) (-1) 6,
      .leftPadding 0 0 (-1) (-1) 6,
      .rightPadding 0 0 (-1) (-1) 6,
      .grid 0 0 (-1) (-1) 0.5 (HexColor "#D1D5DB"),
      .rowBackgrounds 0 1 (-1) (-1) [WHITE, BLUE_TINT]] }

/-- Embedding of `create_gradient_drawing` (lines 290-299): the "gradient"
is `len(colors)` equal-width segments, each `w / len(colors)` wide at
`x = i * (w / len(colors))` — the stop fractions of the CSS gradients are
not consulted at all.  `width` is `None` at every call site in the source
(defaulting to `CONTENT_WIDTH`) and `height` defaults to 40. -/
def create_gradient_drawing (colors : List String) (label : String)
    (width : Option ℚ) (height : ℚ) : DrawingSpec :=
  let w := width.getD CONTENT_WIDTH
  let segment_w := w / (colors.length : ℚ)
  ⟨w, height + 16,
    colors.enum.map (fun ic =>
      GElem.rect ((ic.1 : ℚ) * segment_w) 16 segment_w height
        (some (HexColor ic.2)) none 0) ++
    [GElem.str 4 2 label "Helvetica" 7 TEXT_GRAY]⟩

/-- Brand-values data of `build_pdf` page 2 (lines 348-353):
`(title, description, accent hex)`. -/
def values : List (String × String × String) :=
  [("Trust", "RBI regulated partners, IRDAI registered, ISO 27001 compliant. Security and compliance at our core.", "#1a6ef5"),
   ("Speed", "Swift paperless loan approvals. Quick turnaround powered by 50+ banking partners.", "#C5961E"),
   ("Expertise", "24/7 expert support. 500+ Cr loans disbursed. 10,000+ happy customers served.", "#10b981"),
   ("Simplicity", "Clean, modern, and accessible. Making financial decisions easy for every Indian.", "#f97316")]

/-- The boxed tagline table of page 2 (lines 328-340). -/
def tagline_table : TableSpec :=
  { data := [[Cell.para "Trusted Partner. <font color=\"#C5961E\">Swift Solutions.</font>" "TaglineStyle"]],
    colWidths := [CONTENT_WIDTH],
    repeatRows := 0,
    style := [
      .background 0 0 (-1) (-1) BLUE_TINT,
      .align 0 0 (-1) (-1) "CENTER",
      .topPadding 0 0 (-1) (-1) 16,
      .bottomPadding 0 0 (-1) (-1) 16,
      .box 0 0 (-1) (-1) 1 BLUE_PRIMARY,
      .roundedCorners [8, 8, 8, 8]] }

/-- One brand-value tile table of page 2 (loop body, lines 354-371). -/
def val_table (v : String × String × String) : TableSpec :=
  { data := [[Cell.para (s!"<font color=\"{v.2.2}\">●</font>  <b>{v.1}</b>") "ValueTitle"],
             [Cell.para v.2.1 "SmallText"]],
    colWidths := [CONTENT_WIDTH],
    repeatRows := 0,
    style := [
      .background 0 0 (-1) (-1) WHITE,
      .topPadding 0 0 0 0 8,
      .bottomPadding 0 (-1) (-1) (-1) 8,
      .leftPadding 0 0 (-1) (-1) 12,
      .rightPadding 0 0 (-1) (-1) 12,
      .box 0 0 (-1) (-1) 0.5 BORDER,
      .lineAbove 0 0 (-1) 0 3 (HexColor v.2.2)] }

/-- The key-metrics table of page 2 (lines 376-394). -/
def stats_table : TableSpec :=
  { data := [[Cell.str "500+ Cr", Cell.str "10,000+", Cell.str "50+", Cell.str "24/7"],
             [Cell.str "Loans Disbursed", Cell.str "Happy Customers",
              Cell.str "Banking Partners", Cell.str "Expert Support"]],
    colWidths := List.replicate 4 (CONTENT_WIDTH / 4),
    repeatRows := 0,
    style := [
      .fontName 0 0 (-1) 0 "Helvetica-Bold",
      .fontSize 0 0 (-1) 0 16,
      .textColor 0 0 (-1) 0 BLUE_PRIMARY,
      .fontName 0 1 (-1) 1 "Helvetica",
      .fontSize 0 1 (-1) 1 9,
      .textColor 0 1 (-1) 1 TEXT_GRAY,
      .align 0 0 (-1) (-1) "CENTER",
      .valign 0 0 (-1) (-1) "MIDDLE",
      .topPadding 0 0 (-1) (-1) 10,
      .bottomPadding 0 0 (-1) (-1) 10,
      .background 0 0 (-1) (-1) BLUE_TINT,
      .box 0 0 (-1) (-1) 0.5 BLUE_PALE] }

/-- Page 2 of the story: Brand Overview (lines 316-397). -/
def story_page2 : List Flow :=
  [Flow.para "Brand Overview" "SectionHeader",
   Flow.hr 2 BLUE_PRIMARY 12,
   Flow.para "CredSuvidha is a modern financial services facilitator providing smart financial solutions across loans, credit cards, and insurance. With 50+ banking partners and 10,000+ satisfied customers, we make financial decisions simple, transparent, and accessible for every Indian." "BodyText",
   Flow.spacer 1 12,
   Flow.table tagline_table,
   Flow.spacer 1 8,
   Flow.para "Primary brand tagline — used across all communications" "CaptionText",
   Flow.spacer 1 16,
   Flow.para "Brand Values" "SubHeader"] ++
  (values.map (fun v => [Flow.table (val_table v), Flow.spacer 1 6])).flatten ++
  [Flow.spacer 1 10,
   Flow.para "Key Metrics" "SubHeader",
   Flow.table stats_table,
   Flow.pageBreak]

/-- The framed logo showcase table on white (lines 417-428). -/
def logo_table : TableSpec :=
  { data := [[Cell.img LOGO_PATH (3.5 * inch) (1.8 * inch) "CENTER"]],
    colWidths := [CONTENT_WIDTH],
    repeatRows := 0,
    style := [
      .background 0 0 (-1) (-1) WHITE,
      .align 0 0 (-1) (-1) "CENTER",
      .topPadding 0 0 (-1) (-1) 20,
      .bottomPadding 0 0 (-1) (-1) 20,
      .box 0 0 (-1) (-1) 1 BORDER] }

/-- The framed logo showcase table on brand cream (lines 433-443). -/
def logo_table2 : TableSpec :=
  { data := [[Cell.img LOGO_PATH (3.5 * inch) (1.8 * inch) "CENTER"]],
    colWidths := [CONTENT_WIDTH],
    repeatRows := 0,
    style := [
      .background 0 0 (-1) (-1) LOGO_BG,
      .align 0 0 (-1) (-1) "CENTER",
      .topPadding 0 0 (-1) (-1) 20,
      .bottomPadding 0 0 (-1) (-1) 20,
      .box 0 0 (-1) (-1) 1 BORDER] }

/-- The logo showcase block of page 3, emitted only when the logo asset
exists (the body of the `if os.path.exists(LOGO_PATH):` at line 414). -/
def pdf_logo_showcase : List Flow :=
  [Flow.para "Primary — Light Background" "SubSubHeader",
   Flow.table logo_table,
   Flow.spacer 1 12,
   Flow.para "On Brand Cream — #FAF6F1" "SubSubHeader",
   Flow.table logo_table2]

/-- The logo-elements table of page 3 (lines 449-473). -/
def elem_table : TableSpec :=
  { data := [[Cell.str "Element", Cell.str "Description"],
             [Cell.str "Symbol", Cell.str "Interlocking \"C\" (navy blue) and \"S\" (gold) with upward growth arrow"],
             [Cell.str "Wordmark", Cell.str "\"CREDSUVIDHA.COM\" in navy blue uppercase"],
             [Cell.str "Tagline", Cell.str "\"TRUSTED PARTNER. SWIFT SOLUTIONS.\" in gold"],
             [Cell.str "Min Size", Cell.str "120px wide (digital) / 30mm (print)"],
             [Cell.str "Clear Space", Cell.str "Equal to the height of the \"C\" around all sides"]],
    colWidths := [1.5 * inch, CONTENT_WIDTH - 1.5 * inch],
    repeatRows := 0,
    style := [
      .fontName 0 0 (-1) 0 "Helvetica-Bold",
      .fontSize 0 0 (-1) 0 9,
      .textColor 0 0 (-1) 0 WHITE,
      .background 0 0 (-1) 0 NAVY,
      .fontName 0 1 (-1) (-1) "Helvetica",
      .fontSize 0 1 (-1) (-1) 9,
      .textColor 0 1 (-1) (-1) TEXT_DARK,
      .fontName 0 1 0 (-1) "Helvetica-Bold",
      .valign 0 0 (-1) (-1) "MIDDLE",
      .topPadding 0 0 (-1) (-1) 6,
      .bottomPadding 0 0 (-1) (-1) 6,
      .leftPadding 0 0 (-1) (-1) 8,
      .grid 0 0 (-1) (-1) 0.5 (HexColor "#D1D5DB"),
      .rowBackgrounds 0 1 (-1) (-1) [WHITE, BLUE_TINT]] }

/-- The usage do/don't table of page 3 (lines 479-502). -/
def dd_table : TableSpec :=
  { data := [[Cell.str "Do ✓", Cell.str "Don't ✗"],
             [Cell.str "Use on white, cream, or very light backgrounds", Cell.str "Don't stretch or distort the logo"],
             [Cell.str "Use inverted (white) version on dark backgrounds", Cell.str "Don't change the logo colors"],
             [Cell.str "Maintain proportions when scaling", Cell.str "Don't place on busy or low-contrast backgrounds"],
             [Cell.str "Keep minimum clear space around logo", Cell.str "Don't add effects like drop shadows or outlines"]],
    colWidths := List.replicate 2 (CONTENT_WIDTH / 2),
    repeatRows := 0,
    style := [
      .fontName 0 0 (-1) 0 "Helvetica-Bold",
      .fontSize 0 0 (-1) 0 10,
      .textColor 0 0 0 0 (HexColor "#059669"),
      .textColor 1 0 1 0 (HexColor "#DC2626"),
      .background 0 0 (-1) 0 (HexColor "#F1F5F9"),
      .fontName 0 1 (-1) (-1) "Helvetica",
      .fontSize 0 1 (-1) (-1) 9,
      .textColor 0 1 (-1) (-1) TEXT_DARK,
      .valign 0 0 (-1) (-1) "TOP",
      .topPadding 0 0 (-1) (-1) 6,
      .bottomPadding 0 0 (-1) (-1) 6,
      .leftPadding 0 0 (-1) (-1) 8,
      .grid 0 0 (-1) (-1) 0.5 (HexColor "#D1D5DB"),
      .rowBackgrounds 0 1 (-1) (-1) [WHITE, HexColor "#FEF2F2"]] }

/-- Page 3 of the story: Logo Guidelines (lines 402-505). -/
def story_page3 (logo_exists : Bool) : List Flow :=
  [Flow.para "Logo" "SectionHeader",
   Flow.hr 2 BLUE_PRIMARY 12,
   Flow.para "The CredSuvidha logo features interlocking C and S letterforms with an upward growth arrow, symbolizing financial progress and trusted partnership. The navy blue represents trust and stability, while the gold represents prosperity and value." "BodyText",
   Flow.spacer 1 12] ++
  (if logo_exists then pdf_logo_showcase else []) ++
  [Flow.spacer 1 12,
   Flow.para "Logo Elements" "SubHeader",
   Flow.table elem_table,
   Flow.spacer 1 14,
   Flow.para "Usage Guidelines" "SubHeader",
   Flow.table dd_table,
   Flow.pageBreak]

/-- Brand-blue palette rows of page 4 (lines 521-533). -/
def brand_blue_colors : List (String × String × String) :=
  [("950 Navy Dark", "#142857", "Dark backgrounds, footers"),
   ("900 Navy", "#193f8f", "Deep accents"),
   ("800 Deep Blue", "#1747b6", "Strong emphasis"),
   ("700 Blue", "#1458e1", "Links, interactive"),
   ("600 Primary ★", "#1a6ef5", "Primary CTA, buttons, icons"),
   ("500 Bright", "#338dff", "Hover states, secondary CTA"),
   ("400 Light", "#59b0ff", "Decorative elements"),
   ("300 Lighter", "#8ecdff", "Subtle highlights"),
   ("200 Pale", "#bce0ff", "Light borders"),
   ("100 Wash", "#d9edff", "Subtle backgrounds"),
   ("50 Tint", "#eef7ff", "Page tint, badges")]

/-- Logo-color palette rows of page 4 (lines 539-543). -/
def logo_colors : List (String × String × String) :=
  [("Logo Navy", "#1B3A5C", "C letterform, wordmark text"),
   ("Logo Gold", "#C5961E", "S letterform, tagline text"),
   ("Logo Background", "#FAF6F1", "Original logo background")]

/-- Accent-orange palette rows of page 4 (lines 549-556). -/
def accent_colors : List (String × String × String) :=
  [("700 Dark", "#c2410c", "Pressed state"),
   ("600 Medium", "#ea580c", "Hover state"),
   ("500 Primary ★", "#f97316", "Accent CTA, highlights"),
   ("400 Light", "#fb923c", "Soft accent"),
   ("300 Lighter", "#fdba74", "Decorative"),
   ("50 Tint", "#fff7ed", "Accent background")]

/-- Emerald palette rows of page 5 (lines 563-568). -/
def emerald_colors : List (String × String × String) :=
  [("600 Dark", "#059669", "Success dark"),
   ("500 Primary", "#10b981", "Success indicators, positive values"),
   ("400 Light", "#34d399", "Ticker positive values"),
   ("50 Tint", "#ecfdf5", "Success background")]

/-- Neutral palette rows of page 5 (lines 574-583). -/
def neutral_colors : List (String × String × String) :=
  [("Slate 900", "#0f172a", "Strongest text"),
   ("Text Primary", "#1e293b", "Body text"),
   ("Slate 700", "#334155", "Strong secondary"),
   ("Text Secondary", "#64748b", "Secondary text, captions"),
   ("Text Muted", "#94a3b8", "Muted text, placeholders"),
   ("Border", "#e2e8f0", "Borders, dividers"),
   ("Background Alt", "#f8fafc", "Alt section backgrounds"),
   ("White", "#ffffff", "Page backgrounds, cards")]

/-- Page 4 of the story: Color Palette (lines 510-559). -/
def story_page4 : List Flow :=
  [Flow.para "Color Palette" "SectionHeader",
   Flow.hr 2 BLUE_PRIMARY 12,
   Flow.para "Our color system is built around trust (navy blue), warmth (gold/amber), energy (orange), and growth (emerald green)." "BodyText",
   Flow.spacer 1 8,
   Flow.para "Primary — Brand Blue" "SubHeader",
   Flow.table (create_color_swatch_table brand_blue_colors),
   Flow.spacer 1 12,
   Flow.para "Logo Colors (Extracted)" "SubHeader",
   Flow.table (create_color_swatch_table logo_colors),
   Flow.spacer 1 12,
   Flow.para "Accent — Orange" "SubHeader",
   Flow.table (create_color_swatch_table accent_colors),
   Flow.pageBreak]

/-- Page 5 of the story: remaining palettes (lines 562-586). -/
def story_page5 : List Flow :=
  [Flow.para "Success — Emerald Green" "SubHeader",
   Flow.table (create_color_swatch_table emerald_colors),
   Flow.spacer 1 12,
   Flow.para "Neutrals — Slate Grays" "SubHeader",
   Flow.table (create_color_swatch_table neutral_colors),
   Flow.pageBreak]

/-- Gradient stop-color lists and captions of page 6 (lines 599-606). -/
def gradients : List (List String × String) :=
  [(["#1a6ef5", "#338dff"], "Primary CTA: brand-600 → brand-500"),
   (["#142857", "#1a6ef5", "#338dff"], "Hero / Header: navy → brand-600 → brand-500"),
   (["#f97316", "#fb923c"], "Accent CTA: accent-500 → accent-400"),
   (["#1a6ef5", "#338dff", "#f97316"], "Gradient Text: brand-600 → brand-500 → accent-500"),
   (["#059669", "#10b981"], "Success: emerald-600 → emerald-500"),
   (["#1a6ef5", "#59b0ff"], "Logo Badge: brand-600 → brand-400")]

/-- The CSS-specifications table of page 6 (lines 615-640). -/
def grad_table : TableSpec :=
  { data := [[Cell.str "Name", Cell.str "CSS Value"],
             [Cell.str "Primary CTA", Cell.str "linear-gradient(135deg, #1a6ef5, #338dff)"],
             [Cell.str "Hero", Cell.str "linear-gradient(135deg, #142857 0%, #1a6ef5 50%, #338dff 100%)"],
             [Cell.str "Accent CTA", Cell.str "linear-gradient(135deg, #f97316, #fb923c)"],
             [Cell.str "Gradient Text", Cell.str "linear-gradient(135deg, #1a6ef5 0%, #338dff 50%, #f97316 100%)"],
             [Cell.str "Success", Cell.str "linear-gradient(135deg, #059669, #10b981)"],
             [Cell.str "Logo Badge", Cell.str "linear-gradient(to bottom right, #1a6ef5, #59b0ff)"]],
    colWidths := [1.5 * inch, CONTENT_WIDTH - 1.5 * inch],
    repeatRows := 0,
    style := [
      .fontName 0 0 (-1) 0 "Helvetica-Bold",
      .fontSize 0 0 (-1) 0 9,
      .textColor 0 0 (-1) 0 WHITE,
      .background 0 0 (-1) 0 NAVY,
      .fontName 0 1 0 (-1) "Helvetica-Bold",
      .fontName 1 1 1 (-1) "Courier",
      .fontSize 0 1 (-1) (-1) 8,
      .textColor 0 1 (-1) (-1) TEXT_DARK,
      .valign 0 0 (-1) (-1) "MIDDLE",
      .topPadding 0 0 (-1) (-1) 5,
      .bottomPadding 0 0 (-1) (-1) 5,
      .leftPadding 0 0 (-1) (-1) 8,
      .grid 0 0 (-1) (-1) 0.5 (HexColor "#D1D5DB"),
      .rowBackgrounds 0 1 (-1) (-1) [WHITE, BLUE_TINT]] }

/-- Page 6 of the story: Gradients (lines 591-643). -/
def story_page6 : List Flow :=
  [Flow.para "Gradients" "SectionHeader",
   Flow.hr 2 BLUE_PRIMARY 12,
   Flow.para "Signature gradients used across buttons, backgrounds, and accent elements." "BodyText",
   Flow.spacer 1 10] ++
  (gradients.map (fun g =>
    [Flow.draw (create_gradient_drawing g.1 g.2 none 40), Flow.spacer 1 10])).flatten ++
  [Flow.spacer 1 8,
   Flow.para "CSS Specifications" "SubSubHeader",
   Flow.table grad_table,
   Flow.pageBreak]

/-- The Inter weights table of page 7 (lines 665-690). -/
def type_table : TableSpec :=
  { data := [[Cell.str "Weight", Cell.str "Size", Cell.str "Usage"],
             [Cell.str "Light (300)", Cell.str "—", Cell.str "Subtle body text, descriptions"],
             [Cell.str "Regular (400)", Cell.str "14-16px", Cell.str "Body text, paragraphs"],
             [Cell.str "Medium (500)", Cell.str "13-14px", Cell.str "Navigation, labels, badges"],
             [Cell.str "SemiBold (600)", Cell.str "14px", Cell.str "Buttons, strong emphasis"],
             [Cell.str "Bold (700)", Cell.str "20-40px", Cell.str "Section headers, card titles"],
             [Cell.str "ExtraBold (800)", Cell.str "48-60px", Cell.str "Hero headlines, H1"],
             [Cell.str "Black (900)", Cell.str "—", Cell.str "Special emphasis only"]],
    colWidths := [1.5 * inch, 1.2 * inch, CONTENT_WIDTH - 2.7 * inch],
    repeatRows := 0,
    style := [
      .fontName 0 0 (-1) 0 "Helvetica-Bold",
      .fontSize 0 0 (-1) 0 9,
      .textColor 0 0 (-1) 0 WHITE,
      .background 0 0 (-1) 0 NAVY,
      .fontName 0 1 (-1) (-1) "Helvetica",
      .fontSize 0 1 (-1) (-1) 9,
      .fontName 0 1 0 (-1) "Helvetica-Bold",
      .valign 0 0 (-1) (-1) "MIDDLE",
      .topPadding 0 0 (-1) (-1) 5,
      .bottomPadding 0 0 (-1) (-1) 5,
      .leftPadding 0 0 (-1) (-1) 8,
      .grid 0 0 (-1) (-1) 0.5 (HexColor "#D1D5DB"),
      .rowBackgrounds 0 1 (-1) (-1) [WHITE, BLUE_TINT]] }

/-- The type-scale table of page 7 (lines 705-730). -/
def scale_table : TableSpec :=
  { data := [[Cell.str "Element", Cell.str "Font", Cell.str "Size", Cell.str "Weight"],
             [Cell.str "Hero H1", Cell.str "Inter", Cell.str "48-60px", Cell.str "ExtraBold (800)"],
             [Cell.str "Section H2", Cell.str "Inter", Cell.str "36-40px", Cell.str "Bold (700)"],
             [Cell.str "Card H3", Cell.str "Inter", Cell.str "20-24px", Cell.str "SemiBold (600)"],
             [Cell.str "Body", Cell.str "Inter", Cell.str "14-16px", Cell.str "Regular (400)"],
             [Cell.str "Small / Label", Cell.str "Inter", Cell.str "12-13px", Cell.str "Medium (500)"],
             [Cell.str "Caption", Cell.str "Inter", Cell.str "10-11px", Cell.str "Medium, uppercase"],
             [Cell.str "Display", Cell.str "Playfair Display", Cell.str "36-60px", Cell.str "Bold/ExtraBold"]],
    colWidths := [1.5 * inch, 1.5 * inch, 1.3 * inch, CONTENT_WIDTH - 4.3 * inch],
    repeatRows := 0,
    style := [
      .fontName 0 0 (-1) 0 "Helvetica-Bold",
      .fontSize 0 0 (-1) 0 9,
      .textColor 0 0 (-1) 0 WHITE,
      .background 0 0 (-1) 0 NAVY,
      .fontName 0 1 (-1) (-1) "Helvetica",
      .fontSize 0 1 (-1) (-1) 9,
      .fontName 0 1 0 (-1) "Helvetica-Bold",
      .valign 0 0 (-1) (-1) "MIDDLE",
      .topPadding 0 0 (-1) (-1) 5,
      .bottomPadding 0 0 (-1) (-1) 5,
      .leftPadding 0 0 (-1) (-1) 8,
      .grid 0 0 (-1) (-1) 0.5 (HexColor "#D1D5DB"),
      .rowBackgrounds 0 1 (-1) (-1) [WHITE, BLUE_TINT]] }

/-- Page 7 of the story: Typography (lines 648-742). -/
def story_page7 : List Flow :=
  [Flow.para "Typography" "SectionHeader",
   Flow.hr 2 BLUE_PRIMARY 12,
   Flow.para "A dual typeface system combining clean sans-serif for body text with elegant serif for display elements." "BodyText",
   Flow.spacer 1 8,
   Flow.para "Inter — Primary Typeface (Sans-Serif)" "SubHeader",
   Flow.para "Used for body text, navigation, buttons, labels, and all UI elements. Available weights: Light (300) through Black (900)." "SmallText",
   Flow.spacer 1 4,
   Flow.table type_table,
   Flow.spacer 1 14,
   Flow.para "Playfair Display — Display Typeface (Serif)" "SubHeader",
   Flow.para "Used sparingly for hero headlines and special emphasis. Conveys elegance and authority. Available in Bold (700) and ExtraBold (800)." "SmallText",
   Flow.spacer 1 10,
   Flow.para "Type Scale" "SubHeader",
   Flow.table scale_table,
   Flow.spacer 1 14,
   Flow.para "Font Loading" "SubSubHeader",
   Flow.para "<font face=\"Courier\" size=\"8\">https://fonts.googleapis.com/css2?family=Inter:wght@300;400;500;600;700;800;900&amp;family=Playfair+Display:wght@700;800&amp;display=swap</font>" "SmallText",
   Flow.pageBreak]

/-- The button-variants table of page 8 (lines 751-773). -/
def btn_table : TableSpec :=
  { data := [[Cell.str "Variant", Cell.str "Background", Cell.str "Text", Cell.str "Shadow", Cell.str "Usage"],
             [Cell.str "Primary", Cell.str "gradient(#1a6ef5, #338dff)", Cell.str "White", Cell.str "brand-500/30", Cell.str "Main CTA: Get Started, Apply Now"],
             [Cell.str "Secondary", Cell.str "White + 2px brand border", Cell.str "#1a6ef5", Cell.str "None", Cell.str "Secondary: Explore Services"],
             [Cell.str "Accent", Cell.str "gradient(#f97316, #fb923c)", Cell.str "White", Cell.str "accent-500/30", Cell.str "Highlight CTA"],
             [Cell.str "Dark", Cell.str "#142857 solid", Cell.str "White", Cell.str "None", Cell.str "Subtle: Learn More"]],
    colWidths := [0.8 * inch, 1.8 * inch, 0.7 * inch, 1.0 * inch, CONTENT_WIDTH - 4.3 * inch],
    repeatRows := 0,
    style := [
      .fontName 0 0 (-1) 0 "Helvetica-Bold",
      .fontSize 0 0 (-1) 0 8,
      .textColor 0 0 (-1) 0 WHITE,
      .background 0 0 (-1) 0 NAVY,
      .fontName 0 1 (-1) (-1) "Helvetica",
      .fontSize 0 1 (-1) (-1) 8,
      .fontName 0 1 0 (-1) "Helvetica-Bold",
      .valign 0 0 (-1) (-1) "MIDDLE",
      .topPadding 0 0 (-1) (-1) 5,
      .bottomPadding 0 0 (-1) (-1) 5,
      .leftPadding 0 0 (-1) (-1) 6,
      .grid 0 0 (-1) (-1) 0.5 (HexColor "#D1D5DB"),
      .rowBackgrounds 0 1 (-1) (-1) [WHITE, BLUE_TINT]] }

/-- The UI-effects table of page 8 (lines 784-807). -/
def effects_table : TableSpec :=
  { data := [[Cell.str "Effect", Cell.str "CSS Properties", Cell.str "Usage"],
             [Cell.str "Glass Morphism", Cell.str "bg: rgba(255,255,255,0.08); backdrop-filter: blur(20px);\nborder: 1px solid rgba(255,255,255,0.15)", Cell.str "Hero stats, overlaid cards"],
             [Cell.str "Card Hover", Cell.str "transform: translateY(-8px);\nbox-shadow: 0 25px 60px rgba(0,0,0,0.12)", Cell.str "Service cards, feature cards"],
             [Cell.str "Pulse Glow", Cell.str "box-shadow: 0 0 20-40px rgba(26,110,245,0.3-0.6)", Cell.str "Active states, attention draw"],
             [Cell.str "Scroll Reveal", Cell.str "opacity: 0→1; translateY(30px)→0;\ntransition: 0.8s ease", Cell.str "Section entrance animations"]],
    colWidths := [1.1 * inch, 3.0 * inch, CONTENT_WIDTH - 4.1 * inch],
    repeatRows := 0,
    style := [
      .fontName 0 0 (-1) 0 "Helvetica-Bold",
      .fontSize 0 0 (-1) 0 8,
      .textColor 0 0 (-1) 0 WHITE,
      .background 0 0 (-1) 0 NAVY,
      .fontName 0 1 (-1) (-1) "Helvetica",
      .fontSize 0 1 (-1) (-1) 8,
      .fontName 0 1 0 (-1) "Helvetica-Bold",
      .fontName 1 1 1 (-1) "Courier",
      .valign 0 0 (-1) (-1) "TOP",
      .topPadding 0 0 (-1) (-1) 5,
      .bottomPadding 0 0 (-1) (-1) 5,
      .leftPadding 0 0 (-1) (-1) 6,
      .grid 0 0 (-1) (-1) 0.5 (HexColor "#D1D5DB"),
      .rowBackgrounds 0 1 (-1) (-1) [WHITE, BLUE_TINT]] }

/-- Page 8 of the story: Buttons & UI Components (lines 747-810). -/
def story_page8 : List Flow :=
  [Flow.para "Buttons & UI Components" "SectionHeader",
   Flow.hr 2 BLUE_PRIMARY 12,
   Flow.para "Button Variants" "SubHeader",
   Flow.table btn_table,
   Flow.spacer 1 6,
   Flow.para "Border-radius: 100px (pill shape)  •  Padding: 12px 28px  •  Font: Inter SemiBold 14px  •  Transition: 300ms" "CaptionText",
   Flow.spacer 1 14,
   Flow.para "UI Effects" "SubHeader",
   Flow.table effects_table,
   Flow.pageBreak]

/-- The company-details table of page 9 (lines 820-845). -/
def company_table : TableSpec :=
  { data := [[Cell.str "Field", Cell.str "Value"],
             [Cell.str "Company Name", Cell.str "CredSuvidha"],
             [Cell.str "Tagline", Cell.str "Trusted Partner. Swift Solutions."],
             [Cell.str "Description", Cell.str "Smart Financial Solutions for a Better Tomorrow"],
             [Cell.str "Domain", Cell.str "www.credsuvidha.com"],
             [Cell.str "Industry", Cell.str "Financial Services (Fintech)"],
             [Cell.str "Copyright", Cell.str "© 2025 CredSuvidha. All rights reserved."]],
    colWidths := [1.5 * inch, CONTENT_WIDTH - 1.5 * inch],
    repeatRows := 0,
    style := [
      .fontName 0 0 (-1) 0 "Helvetica-Bold",
      .fontSize 0 0 (-1) 0 9,
      .textColor 0 0 (-1) 0 WHITE,
      .background 0 0 (-1) 0 NAVY,
      .fontName 0 1 0 (-1) "Helvetica-Bold",
      .fontName 1 1 1 (-1) "Helvetica",
      .fontSize 0 1 (-1) (-1) 9,
      .textColor 0 1 (-1) (-1) TEXT_DARK,
      .valign 0 0 (-1) (-1) "MIDDLE",
      .topPadding 0 0 (-1) (-1) 6,
      .bottomPadding 0 0 (-1) (-1) 6,
      .leftPadding 0 0 (-1) (-1) 8,
      .grid 0 0 (-1) (-1) 0.5 (HexColor "#D1D5DB"),
      .rowBackgrounds 0 1 (-1) (-1) [WHITE, BLUE_TINT]] }

/-- The contact-information table of page 9 (lines 851-874). -/
def contact_table : TableSpec :=
  { data := [[Cell.str "Channel", Cell.str "Details"],
             [Cell.str "Phone", Cell.str "+91 93076 73391"],
             [Cell.str "Email", Cell.str "info@credsuvidha.com"],
             [Cell.str "Website", Cell.str "https://www.credsuvidha.com"],
             [Cell.str "Social", Cell.str "Facebook  •  Twitter/X  •  LinkedIn  •  Instagram"]],
    colWidths := [1.5 * inch, CONTENT_WIDTH - 1.5 * inch],
    repeatRows := 0,
    style := [
      .fontName 0 0 (-1) 0 "Helvetica-Bold",
      .fontSize 0 0 (-1) 0 9,
      .textColor 0 0 (-1) 0 WHITE,
      .background 0 0 (-1) 0 BLUE_PRIMARY,
      .fontName 0 1 0 (-1) "Helvetica-Bold",
      .fontName 1 1 1 (-1) "Helvetica",
      .fontSize 0 1 (-1) (-1) 9,
      .textColor 0 1 (-1) (-1) TEXT_DARK,
      .valign 0 0 (-1) (-1) "MIDDLE",
      .topPadding 0 0 (-1) (-1) 6,
      .bottomPadding 0 0 (-1) (-1) 6,
      .leftPadding 0 0 (-1) (-1) 8,
      .grid 0 0 (-1) (-1) 0.5 (HexColor "#D1D5DB"),
      .rowBackgrounds 0 1 (-1) (-1) [WHITE, BLUE_TINT]] }

/-- Compliance badges and descriptions of page 9 (lines 880-884). -/
def compliance_items : List (String × String) :=
  [("RBI Regulated Partners", "All banking partners are regulated by the Reserve Bank of India"),
   ("IRDAI Registered", "Insurance products through IRDAI registered entities"),
   ("ISO 27001 Compliant", "Information security management system compliance")]

/-- One compliance tile table of page 9 (loop body, lines 885-900). -/
def comp_table (item : String × String) : TableSpec :=
  { data := [[Cell.para (s!"<font color=\"#059669\">✓</font>  <b>{item.1}</b>") "BodyLeft"],
             [Cell.para item.2 "SmallText"]],
    colWidths := [CONTENT_WIDTH],
    repeatRows := 0,
    style := [
      .background 0 0 (-1) (-1) (HexColor "#ecfdf5"),
      .topPadding 0 0 0 0 8,
      .bottomPadding 0 (-1) (-1) (-1) 8,
      .leftPadding 0 0 (-1) (-1) 12,
      .box 0 0 (-1) (-1) 0.5 EMERALD_LT] }

/-- The technical-specifications table of page 9 (lines 906-931). -/
def tech_table : TableSpec :=
  { data := [[Cell.str "Component", Cell.str "Details"],
             [Cell.str "CSS Framework", Cell.str "Tailwind CSS via CDN (cdn.tailwindcss.com) with custom theme"],
             [Cell.str "Fonts", Cell.str "Google Fonts: Inter (300-900) + Playfair Display (700-800)"],
             [Cell.str "JavaScript", Cell.str "Vanilla JS — scroll reveal, counter animation, mobile menu, smooth scroll"],
             [Cell.str "Architecture", Cell.str "Single-page HTML application — no build step required"],
             [Cell.str "Hosting", Cell.str "Netlify (static) — custom domain: www.credsuvidha.com"],
             [Cell.str "Git", Cell.str "Version controlled — deployed via Git push to Netlify"]],
    colWidths := [1.3 * inch, CONTENT_WIDTH - 1.3 * inch],
    repeatRows := 0,
    style := [
      .fontName 0 0 (-1) 0 "Helvetica-Bold",
      .fontSize 0 0 (-1) 0 9,
      .textColor 0 0 (-1) 0 WHITE,
      .background 0 0 (-1) 0 NAVY,
      .fontName 0 1 0 (-1) "Helvetica-Bold",
      .fontName 1 1 1 (-1) "Helvetica",
      .fontSize 0 1 (-1) (-1) 9,
      .textColor 0 1 (-1) (-1) TEXT_DARK,
      .valign 0 0 (-1) (-1) "MIDDLE",
      .topPadding 0 0 (-1) (-1) 5,
      .bottomPadding 0 0 (-1) (-1) 5,
      .leftPadding 0 0 (-1) (-1) 8,
      .grid 0 0 (-1) (-1) 0.5 (HexColor "#D1D5DB"),
      .rowBackgrounds 0 1 (-1) (-1) [WHITE, BLUE_TINT]] }

/-- Page 9 of the story: Brand Information (lines 815-934). -/
def story_page9 : List Flow :=
  [Flow.para "Brand Information" "SectionHeader",
   Flow.hr 2 BLUE_PRIMARY 12,
   Flow.para "Company Details" "SubHeader",
   Flow.table company_table,
   Flow.spacer 1 14,
   Flow.para "Contact Information" "SubHeader",
   Flow.table contact_table,
   Flow.spacer 1 14,
   Flow.para "Compliance & Certifications" "SubHeader"] ++
  (compliance_items.map (fun item => [Flow.table (comp_table item), Flow.spacer 1 4])).flatten ++
  [Flow.spacer 1 14,
   Flow.para "Technical Specifications" "SubHeader",
   Flow.table tech_table,
   Flow.pageBreak]

/-- The asset-inventory table of page 10 (lines 942-971). -/
def assets_table : TableSpec :=
  { data := [[Cell.str "Asset", Cell.str "File Path", Cell.str "Purpose"],
             [Cell.str "Primary Logo", Cell.str "logo.png", Cell.str "Full logo — symbol + wordmark + tagline"],
             [Cell.str "Logo (Assets)", Cell.str "assets/images/logo.png", Cell.str "Same logo in organized assets folder"],
             [Cell.str "Brand Kit (HTML)", Cell.str "assets/brandkit/brand-guidelines.html", Cell.str "Interactive visual brand guidelines"],
             [Cell.str "Brand Kit (PDF)", Cell.str "assets/brandkit/CredSuvidha-BrandKit.pdf", Cell.str "This document"],
             [Cell.str "Brand Tokens", Cell.str "assets/brandkit/brand-tokens.json", Cell.str "Machine-readable design tokens"],
             [Cell.str "Website", Cell.str "index.html", Cell.str "Main website (single-page application)"],
             [Cell.str "Netlify Config", Cell.str "netlify.toml", Cell.str "Deployment config with headers & redirects"]],
    colWidths := [1.2 * inch, 2.5 * inch, CONTENT_WIDTH - 3.7 * inch],
    repeatRows := 0,
    style := [
      .fontName 0 0 (-1) 0 "Helvetica-Bold",
      .fontSize 0 0 (-1) 0 9,
      .textColor 0 0 (-1) 0 WHITE,
      .background 0 0 (-1) 0 NAVY,
      .fontName 0 1 (-1) (-1) "Helvetica",
      .fontSize 0 1 (-1) (-1) 9,
      .fontName 0 1 0 (-1) "Helvetica-Bold",
      .fontName 1 1 1 (-1) "Courier",
      .fontSize 1 1 1 (-1) 8,
      .textColor 0 1 (-1) (-1) TEXT_DARK,
      .textColor 1 1 1 (-1) BLUE_PRIMARY,
      .valign 0 0 (-1) (-1) "MIDDLE",
      .topPadding 0 0 (-1) (-1) 6,
      .bottomPadding 0 0 (-1) (-1) 6,
      .leftPadding 0 0 (-1) (-1) 8,
      .grid 0 0 (-1) (-1) 0.5 (HexColor "#D1D5DB"),
      .rowBackgrounds 0 1 (-1) (-1) [WHITE, BLUE_TINT]] }

/-- The closing note table of page 10 (lines 977-991). -/
def final_table : TableSpec :=
  { data := [[Cell.para "<b>This brand kit is a living document.</b> As CredSuvidha evolves, update this guide to reflect new brand elements, services, and visual standards. Consistency is key to building a strong, trusted brand presence." "BodyLeft"]],
    colWidths := [CONTENT_WIDTH],
    repeatRows := 0,
    style := [
      .background 0 0 (-1) (-1) BLUE_TINT,
      .topPadding 0 0 (-1) (-1) 14,
      .bottomPadding 0 0 (-1) (-1) 14,
      .leftPadding 0 0 (-1) (-1) 16,
      .rightPadding 0 0 (-1) (-1) 16,
      .box 0 0 (-1) (-1) 1 BLUE_PRIMARY] }

/-- Page 10 of the story: Asset Inventory (lines 939-992). -/
def story_page10 : List Flow :=
  [Flow.para "Asset Inventory" "SectionHeader",
   Flow.hr 2 BLUE_PRIMARY 12,
   Flow.table assets_table,
   Flow.spacer 1 30,
   Flow.table final_table]

/-- The complete platypus story built by `build_pdf` (lines 302-992): a
page break off the cover page followed by the content pages. -/
def build_pdf_story (logo_exists : Bool) : List Flow :=
  [Flow.pageBreak] ++ story_page2 ++ story_page3 logo_exists ++ story_page4 ++
    story_page5 ++ story_page6 ++ story_page7 ++ story_page8 ++ story_page9 ++
    story_page10

/-- The document handed to reportlab by `build_pdf` (lines 997-1013):
cover-page painter (`onFirstPage`), recurring frame painter
(`onLaterPages`), story, and document metadata. -/
structure PdfDoc where
  cover : List CanvasOp
  pageFrame : ℕ → List CanvasOp
  story : List Flow
  title : String
  author : String
  subject : String

/-- Embedding of `build_pdf` (lines 302-1018). -/
def build_pdf (logo_exists : Bool) (date : String) : PdfDoc :=
  { cover := draw_cover_page logo_exists date,
    pageFrame := fun page => draw_header_footer logo_exists page,
    story := build_pdf_story logo_exists,
    title := "CredSuvidha Brand Kit",
    author := "CredSuvidha",
    subject := "Visual Identity & Brand Guidelines" }

/-- The module-level control flow of `generate_brandkit_pdf.py`: lines
28-29 open and JSON-parse `brand-tokens.json` before anything else runs,
so a missing or malformed token file raises before any output exists;
the parsed `tokens` value is never referenced afterwards. -/
def run_pdf_generator (tf : TokenFile) (logo_exists : Bool) (date : String) :
    Except BuildError PdfDoc :=
  match tf with
  | .absent => .error .fileNotFound
  | .malformed => .error .jsonDecode
  | .valid _ => .ok (build_pdf logo_exists date)

end Pdf

namespace Pptx

/-! Embedding of `generate_brandkit_pptx.py`.  All lengths are in EMU,
modelled exactly: `Inches(q) = q * 914400`, `Pt(q) = q * 12700`.  (The
claims settled below do not depend on python-pptx's final integer
truncation of EMU values.) -/

/-- python-pptx `Inches`, in EMU. -/
def Inches (q : ℚ) : ℚ := q * 914400

/-- python-pptx `Pt`, in EMU. -/
def Pt (q : ℚ) : ℚ := q * 12700

/-- python-pptx `RGBColor`. -/
def RGBColor (r g b : ℕ) : RGB := ⟨r, g, b⟩

def NAVY_DARK : RGB := RGBColor 0x14 0x28 0x57

def NAVY : RGB := RGBColor 0x19 0x3F 0x8F

def BLUE_PRIMARY : RGB := RGBColor 0x1A 0x6E 0xF5

def BLUE_BRIGHT : RGB := RGBColor 0x33 0x8D 0xFF

def BLUE_LIGHT : RGB := RGBColor 0x59 0xB0 0xFF

def BLUE_PALE : RGB := RGBColor 0xBC 0xE0 0xFF

def BLUE_TINT : RGB := RGBColor 0xEE 0xF7 0xFF

def ACCENT_PRI : RGB := RGBColor 0xF9 0x73 0x16

def ACCENT_LT : RGB := RGBColor 0xFB 0x92 0x3C

def EMERALD : RGB := RGBColor 0x10 0xB9 0x81

def EMERALD_DK : RGB := RGBColor 0x05 0x96 0x69

def LOGO_NAVY : RGB := RGBColor 0x1B 0x3A 0x5C

def LOGO_GOLD : RGB := RGBColor 0xC5 0x96 0x1E

def LOGO_BG : RGB := RGBColor 0xFA 0xF6 0xF1

def TEXT_DARK : RGB := RGBColor 0x1E 0x29 0x3B

def TEXT_GRAY : RGB := RGBColor 0x64 0x74 0x8B

def TEXT_MUTED : RGB := RGBColor 0x94 0xA3 0xB8

def BORDER : RGB := RGBColor 0xE2 0xE8 0xF0

def BG_ALT : RGB := RGBColor 0xF8 0xFA 0xFC

def WHITE : RGB := RGBColor 0xFF 0xFF 0xFF

def BLACK : RGB := RGBColor 0x00 0x00 0x00

/-- One shape/text/picture/notes operation added to a slide, in program
order.  `shape` records `add_shape_with_fill` (kind, geometry, solid fill)
together with any subsequent `.line` styling applied by the caller
(`none` means the helper's `line.fill.background()` was left in place).
`textbox` records `add_textbox` with the Python defaults expanded
(`font_size=16, bold=False, italic=False, color=TEXT_DARK,
alignment=left, font_name='Calibri'`).  `runs` records a text box built
run by run via `set_font`, as `(text, size_pt, bold, color)` with the
remaining `set_font` defaults unchanged.  `bg` records setting the
slide-background fill. -/
inductive SlideOp where
  | bg (color : RGB)
  | shape (kind : String) (left top width height : ℚ) (fill : RGB)
      (line : Option (RGB × ℚ))
  | textbox (left top width height : ℚ) (text : String) (size : ℚ)
      (bold italic : Bool) (color : RGB) (align : String) (font : String)
  | runs (left top width height : ℚ) (align : String)
      (rs : List (String × ℚ × Bool × RGB))
  | picture (path : String) (left top : ℚ) (width : ℚ)
  | notes (text : String)
deriving DecidableEq

/-- Whether an operation places a picture (`shapes.add_picture`). -/
def SlideOp.isPicture : SlideOp → Bool
  | .picture _ _ _ _ => true
  | _ => false

/-- Text payload of a single-run text box, if any. -/
def SlideOp.textOf : SlideOp → Option String
  | .textbox _ _ _ _ t _ _ _ _ _ _ => some t
  | _ => none

/-- Geometry-preserving projection: blanks all text payloads but keeps
every position, size, color, font size, and shape styling. -/
def SlideOp.scrub : SlideOp → SlideOp
  | .textbox l t w h _ sz b i c a f => .textbox l t w h "" sz b i c a f
  | .runs l t w h a rs => .runs l t w h a (rs.map (fun r => ("", r.2.1, r.2.2.1, r.2.2.2)))
  | .notes _ => .notes ""
  | op => op

/-- Embedding of `add_accent_bar` (lines 106-108). -/
def add_accent_bar (top : ℚ) (color : RGB) (height : ℚ) : List SlideOp :=
  [SlideOp.shape "rect" (Inches 0) top (Inches 13.333) height color none]

/-- Embedding of `add_footer_bar` (lines 111-123): navy bar, left tagline,
right domain. -/
def add_footer_bar : List SlideOp :=
  [SlideOp.shape "rect" (Inches 0) (Inches 7.08) (Inches 13.333) (Inches 0.42) NAVY_DARK none,
   SlideOp.textbox (Inches 0.4) (Inches 7.13) (Inches 5) (Inches 0.3)
     "CredSuvidha — Trusted Partner. Swift Solutions." 9 false true BLUE_LIGHT "left" "Calibri",
   SlideOp.textbox (Inches 9.5) (Inches 7.13) (Inches 3.5) (Inches 0.3)
     "www.credsuvidha.com" 9 false false LOGO_GOLD "right" "Calibri"]

/-- Embedding of `add_slide_number` (lines 126-129).  The `total`
parameter defaults to 12 in the source and every call site relies on the
default, so callers here pass 12 explicitly. -/
def add_slide_number (number total : ℕ) : List SlideOp :=
  [SlideOp.textbox (Inches 6.2) (Inches 7.15) (Inches 1) (Inches 0.25)
     (s!"{number}/{total}") 9 false false WHITE "center" "Calibri"]

/-- Embedding of `add_logo_header` (lines 132-135): the corner logo is
placed only when the asset file exists. -/
def add_logo_header (logo_exists : Bool) : List SlideOp :=
  if logo_exists then
    [SlideOp.picture LOGO_PATH (Inches 10.8) (Inches 0.2) (Inches 2.2)]
  else []

/-- Slide 1 — `build_title_slide` (lines 142-181). -/
def build_title_slide (logo_exists : Bool) (date : String) : List SlideOp :=
  [SlideOp.bg NAVY_DARK,
   SlideOp.shape "rect" (Inches 0) (Inches 4.5) (Inches 6.667) (Pt 5) BLUE_PRIMARY none,
   SlideOp.shape "rect" (Inches 6.667) (Inches 4.5) (Inches 6.666) (Pt 5) LOGO_GOLD none] ++
  (if logo_exists then
    [SlideOp.picture LOGO_PATH (Inches 3.8) (Inches 0.6) (Inches 5.5)]
   else []) ++
  [SlideOp.textbox (Inches 1) (Inches 4.7) (Inches 11.333) (Inches 0.8)
     "Brand Kit" 40 true false WHITE "center" "Calibri",
   SlideOp.textbox (Inches 1) (Inches 5.4) (Inches 11.333) (Inches 0.6)
     "Visual Identity & Brand Guidelines" 20 false false BLUE_LIGHT "center" "Calibri",
   SlideOp.textbox (Inches 1) (Inches 6.1) (Inches 11.333) (Inches 0.4)
     (s!"Version 1.0  •  {date}  •  www.credsuvidha.com") 11 false true TEXT_MUTED "center" "Calibri",
   SlideOp.shape "rect" (Inches 0) (Inches 7.2) (Inches 13.333) (Inches 0.3) BLUE_PRIMARY none,
   SlideOp.notes "[KEY POINT]: Welcome to the CredSuvidha Brand Kit presentation.\n[DATA]: This guide covers our visual identity including logo, colors, typography, and UI components.\n[TRANSITION]: Let's start with an overview of our brand."]

/-- Key-stats card data of slide 2 (lines 215-220). -/
def stats : List (String × String × RGB) :=
  [("500+ Cr", "Loans Disbursed", BLUE_PRIMARY),
   ("10,000+", "Happy Customers", LOGO_GOLD),
   ("50+", "Banking Partners", EMERALD),
   ("24/7", "Expert Support", ACCENT_PRI)]

/-- Content of slide 2 after the recurring frame (lines 194-263). -/
def brand_overview_content : List SlideOp :=
  let card_width := Inches 2.6
  let card_height := Inches 1.5
  let start_x := Inches 0.8
  let spacing := Inches 0.2
  let card_y := Inches 3.3
  [SlideOp.textbox (Inches 0.8) (Inches 0.5) (Inches 8) (Inches 0.7)
     "Brand Overview" 32 true false NAVY_DARK "left" "Calibri",
   SlideOp.shape "rect" (Inches 0.8) (Inches 1.4) (Inches 11.7) (Inches 1.0) BLUE_TINT
     (some (BLUE_PRIMARY, Pt 1)),
   SlideOp.textbox (Inches 1.2) (Inches 1.5) (Inches 11) (Inches 0.8)
     "\"Smart Financial Solutions for a Better Tomorrow\"" 22 true false NAVY_DARK "center" "Calibri",
   SlideOp.runs (Inches 0.8) (Inches 2.5) (Inches 11.7) (Inches 0.5) "center"
     [("Trusted Partner. ", 18, true, NAVY_DARK), ("Swift Solutions.", 18, true, LOGO_GOLD)]] ++
  (stats.enum.map (fun istat =>
    let x := start_x + (istat.1 : ℚ) * (card_width + spacing)
    [SlideOp.shape "rect" x card_y card_width card_height WHITE (some (BORDER, Pt 0.5)),
     SlideOp.shape "rect" x card_y card_width (Pt 4) istat.2.2.2 none,
     SlideOp.textbox x (card_y + Inches 0.2) card_width (Inches 0.6)
       istat.2.1 28 true false istat.2.2.2 "center" "Calibri",
     SlideOp.textbox x (card_y + Inches 0.85) card_width (Inches 0.4)
       istat.2.2.1 12 false false TEXT_GRAY "center" "Calibri"])).flatten ++
  [SlideOp.textbox (Inches 0.8) (Inches 5.2) (Inches 11.7) (Inches 1.0)
     "CredSuvidha is a modern financial services facilitator providing smart solutions across loans, credit cards, and insurance. We partner with 50+ banks to offer the best rates and fastest approvals for every Indian customer."
     13 false false TEXT_GRAY "center" "Calibri",
   SlideOp.shape "roundRect" (Inches 5.0) (Inches 6.3) (Inches 3.3) (Inches 0.35) BLUE_PRIMARY none,
   SlideOp.textbox (Inches 5.0) (Inches 6.32) (Inches 3.3) (Inches 0.3)
     "Financial Services (Fintech)" 11 true false WHITE "center" "Calibri",
   SlideOp.notes "[KEY POINT]: CredSuvidha is a fintech facilitator providing loans, credit cards, and insurance.\n[DATA]: 500+ Cr disbursed, 10K+ customers, 50+ banking partners, 24/7 support.\n[TRANSITION]: Let's look at our visual identity starting with the logo."]

/-- Slide 2 — `build_brand_overview` (lines 184-263). -/
def build_brand_overview (logo_exists : Bool) : List SlideOp :=
  [SlideOp.bg BG_ALT] ++
  add_accent_bar (Inches 0) BLUE_PRIMARY (Pt 4) ++
  add_logo_header logo_exists ++
  add_footer_bar ++
  add_slide_number 2 12 ++
  brand_overview_content

/-- The logo showcase block of slide 3, emitted only when the logo asset
exists (the body of the `if os.path.exists(LOGO_PATH):` at line 285). -/
def pptx_logo_showcase : List SlideOp :=
  [SlideOp.shape "rect" (Inches 0.8) (Inches 1.8) (Inches 5.4) (Inches 2.8) WHITE
     (some (BORDER, Pt 0.5)),
   SlideOp.picture LOGO_PATH (Inches 1.5) (Inches 2.0) (Inches 4.0),
   SlideOp.textbox (Inches 0.8) (Inches 4.3) (Inches 5.4) (Inches 0.3)
     "Primary — Light Background" 10 false false TEXT_MUTED "center" "Calibri",
   SlideOp.shape "rect" (Inches 6.5) (Inches 1.8) (Inches 5.9) (Inches 2.8) LOGO_BG
     (some (BORDER, Pt 0.5)),
   SlideOp.picture LOGO_PATH (Inches 7.4) (Inches 2.0) (Inches 4.0),
   SlideOp.textbox (Inches 6.5) (Inches 4.3) (Inches 5.9) (Inches 0.3)
     "On Brand Cream — #FAF6F1" 10 false false TEXT_MUTED "center" "Calibri"]

/-- Logo-elements rows of slide 3 (lines 304-309). -/
def elements : List (String × String) :=
  [("Symbol", "Interlocking C (navy) & S (gold) with upward arrow"),
   ("Wordmark", "\"CREDSUVIDHA.COM\" in navy blue uppercase"),
   ("Tagline", "\"TRUSTED PARTNER. SWIFT SOLUTIONS.\" in gold"),
   ("Min Size", "120px wide (digital) / 30mm (print)")]

/-- Do-list of slide 3 (lines 322-324). -/
def dos : List String :=
  ["Use on white, cream, or light backgrounds",
   "Use inverted version on dark backgrounds",
   "Maintain proportions when scaling"]

/-- Don't-list of slide 3 (lines 332-334). -/
def donts : List String :=
  ["Stretch or distort the logo",
   "Change the logo colors",
   "Place on busy backgrounds"]

/-- The two introductory text boxes of slide 3 (lines 277-282). -/
def logo_slide_intro : List SlideOp :=
  [SlideOp.textbox (Inches 0.8) (Inches 0.5) (Inches 8) (Inches 0.7)
     "Logo" 32 true false NAVY_DARK "left" "Calibri",
   SlideOp.textbox (Inches 0.8) (Inches 1.1) (Inches 11.7) (Inches 0.5)
     "Interlocking C and S letterforms with an upward growth arrow — symbolizing financial progress and partnership."
     13 false false TEXT_GRAY "left" "Calibri"]

/-- Content of slide 3 after the showcase block (lines 301-342). -/
def logo_slide_tail : List SlideOp :=
  [SlideOp.textbox (Inches 0.8) (Inches 4.85) (Inches 4) (Inches 0.4)
     "Logo Elements" 16 true false NAVY_DARK "left" "Calibri"] ++
  (elements.enum.map (fun ie =>
    let y := Inches 5.25 + (ie.1 : ℚ) * Inches 0.35
    [SlideOp.textbox (Inches 1.0) y (Inches 1.5) (Inches 0.3)
       (s!"● {ie.2.1}:") 11 true false BLUE_PRIMARY "left" "Calibri",
     SlideOp.textbox (Inches 2.6) y (Inches 4.5) (Inches 0.3)
       ie.2.2 11 false false TEXT_DARK "left" "Calibri"])).flatten ++
  [SlideOp.textbox (Inches 7.5) (Inches 4.85) (Inches 2.5) (Inches 0.4)
     "✓  Do" 16 true false EMERALD_DK "left" "Calibri"] ++
  (dos.enum.map (fun it =>
    [SlideOp.textbox (Inches 7.7) (Inches 5.3 + (it.1 : ℚ) * Inches 0.32) (Inches 5) (Inches 0.3)
       (s!"●  {it.2}") 10 false false TEXT_DARK "left" "Calibri"])).flatten ++
  [SlideOp.textbox (Inches 10.2) (Inches 4.85) (Inches 2.5) (Inches 0.4)
     "✗  Don't" 16 true false (RGBColor 0xDC 0x26 0x26) "left" "Calibri"] ++
  (donts.enum.map (fun it =>
    [SlideOp.textbox (Inches 10.4) (Inches 5.3 + (it.1 : ℚ) * Inches 0.32) (Inches 3) (Inches 0.3)
       (s!"●  {it.2}") 10 false false TEXT_DARK "left" "Calibri"])).flatten ++
  [SlideOp.notes "[KEY POINT]: The logo features interlocking C and S with a growth arrow.\n[DATA]: Navy blue = trust/stability, Gold = prosperity/value.\n[TRANSITION]: Now let's examine our color palette in detail."]

/-- Slide 3 — `build_logo_slide` (lines 266-342). -/
def build_logo_slide (logo_exists : Bool) : List SlideOp :=
  [SlideOp.bg BG_ALT] ++
  add_accent_bar (Inches 0) BLUE_PRIMARY (Pt 4) ++
  add_logo_header logo_exists ++
  add_footer_bar ++
  add_slide_number 3 12 ++
  logo_slide_intro ++
  (if logo_exists then pptx_logo_showcase else []) ++
  logo_slide_tail

/-- Brand-blue swatch row data of slide 4 (lines 366-370): `(hex, label)`. -/
def brand_blues : List (String × String) :=
  [("#142857", "950"), ("#193f8f", "900"), ("#1747b6", "800"), ("#1458e1", "700"),
   ("#1a6ef5", "600★"), ("#338dff", "500"), ("#59b0ff", "400"),
   ("#8ecdff", "300"), ("#bce0ff", "200"), ("#eef7ff", "50")]

/-- Logo-color swatch data of slide 4 (line 393). -/
def pptx_logo_colors : List (String × String) :=
  [("#1B3A5C", "Logo Navy"), ("#C5961E", "Logo Gold"), ("#FAF6F1", "Logo BG")]

/-- Accent-orange swatch data of slide 4 (lines 406-409). -/
def pptx_accent_colors : List (String × String) :=
  [("#c2410c", "700"), ("#ea580c", "600"), ("#f97316", "500★"),
   ("#fb923c", "400"), ("#fdba74", "300"), ("#fff7ed", "50")]

/-- Emerald swatch data of slide 4 (lines 423-425). -/
def pptx_emerald_colors : List (String × String) :=
  [("#059669", "600"), ("#10b981", "500"), ("#34d399", "400"), ("#ecfdf5", "50")]

/-- Content of slide 4 after the recurring frame. -/
def color_palette_content : List SlideOp :=
  let sw := Inches 1.15
  let sh := Inches 0.65
  let sx := Inches 0.8
  let sy := Inches 1.95
  [SlideOp.textbox (Inches 0.8) (Inches 0.5) (Inches 8) (Inches 0.7)
     "Color Palette" 32 true false NAVY_DARK "left" "Calibri",
   SlideOp.textbox (Inches 0.8) (Inches 1.1) (Inches 11.7) (Inches 0.4)
     "Built around trust (navy blue), warmth (gold/amber), energy (orange), and growth (emerald green)."
     13 false false TEXT_GRAY "left" "Calibri",
   SlideOp.textbox (Inches 0.8) (Inches 1.6) (Inches 3) (Inches 0.3)
     "Primary — Brand Blue" 14 true false NAVY_DARK "left" "Calibri"] ++
  (brand_blues.enum.map (fun ih =>
    let x := sx + (ih.1 : ℚ) * (sw + Inches 0.08)
    [SlideOp.shape "rect" x sy sw sh (parseHexColor ih.2.1) (some (BORDER, Pt 0.5)),
     SlideOp.textbox x (sy + sh + Pt 2) sw (Inches 0.2)
       ih.2.2 8 true false TEXT_GRAY "center" "Calibri",
     SlideOp.textbox x (sy + sh + Inches 0.18) sw (Inches 0.2)
       (pyUpper ih.2.1) 7 false false TEXT_MUTED "center" "Calibri"])).flatten ++
  [SlideOp.textbox (Inches 0.8) (Inches 3.1) (Inches 4) (Inches 0.3)
     "Logo Colors" 14 true false NAVY_DARK "left" "Calibri"] ++
  (pptx_logo_colors.enum.map (fun ih =>
    let x := Inches 0.8 + (ih.1 : ℚ) * Inches 2.5
    [SlideOp.shape "rect" x (Inches 3.4) (Inches 2.2) (Inches 0.55)
       (parseHexColor ih.2.1) (some (BORDER, Pt 0.5)),
     SlideOp.textbox x (Inches 3.98) (Inches 2.2) (Inches 0.3)
       (s!"{ih.2.2}  {ih.2.1}") 9 false false TEXT_GRAY "center" "Calibri"])).flatten ++
  [SlideOp.textbox (Inches 0.8) (Inches 4.45) (Inches 4) (Inches 0.3)
     "Accent — Orange" 14 true false NAVY_DARK "left" "Calibri"] ++
  (pptx_accent_colors.enum.map (fun ih =>
    let x := Inches 0.8 + (ih.1 : ℚ) * (Inches 2.0 + Inches 0.08)
    [SlideOp.shape "rect" x (Inches 4.8) (Inches 2.0) (Inches 0.55)
       (parseHexColor ih.2.1) (some (BORDER, Pt 0.5)),
     SlideOp.textbox x (Inches 5.38) (Inches 2.0) (Inches 0.25)
       (ih.2.2 ++ "  " ++ pyUpper ih.2.1) 8 false false TEXT_GRAY "center" "Calibri"])).flatten ++
  [SlideOp.textbox (Inches 0.8) (Inches 5.8) (Inches 4) (Inches 0.3)
     "Success — Emerald Green" 14 true false NAVY_DARK "left" "Calibri"] ++
  (pptx_emerald_colors.enum.map (fun ih =>
    let x := Inches 0.8 + (ih.1 : ℚ) * Inches 2.5
    [SlideOp.shape "rect" x (Inches 6.1) (Inches 2.2) (Inches 0.5)
       (parseHexColor ih.2.1) (some (BORDER, Pt 0.5)),
     SlideOp.textbox x (Inches 6.63) (Inches 2.2) (Inches 0.25)
       (ih.2.2 ++ "  " ++ pyUpper ih.2.1) 8 false false TEXT_GRAY "center" "Calibri"])).flatten ++
  [SlideOp.notes "[KEY POINT]: Our color system has 4 families — brand blue, logo colors, accent orange, emerald.\n[DATA]: Primary brand color is #1A6EF5 (Brand 600). Logo uses #1B3A5C navy and #C5961E gold.\n[TRANSITION]: Next, let's look at our gradient specifications."]

/-- Slide 4 — `build_color_palette_slide` (lines 345-437).  Brand-blue,
accent and emerald swatch captions show `hex_code.upper()`; the
logo-color captions show `hex_code` as stored (already uppercase in the
data).  The `text_col` local computed in the source loops is never used
and is therefore not recorded. -/
def build_color_palette_slide (logo_exists : Bool) : List SlideOp :=
  [SlideOp.bg BG_ALT] ++
  add_accent_bar (Inches 0) BLUE_PRIMARY (Pt 4) ++
  add_logo_header logo_exists ++
  add_footer_bar ++
  add_slide_number 4 12 ++
  color_palette_content

/-- Gradient card data of slide 5 (lines 457-470):
`(name, css caption, [(stop color, stop fraction)])`. -/
def pptx_gradients : List (String × String × List (RGB × ℚ)) :=
  [("Primary CTA", "linear-gradient(135deg, #1a6ef5, #338dff)",
    [(BLUE_PRIMARY, 0.5), (BLUE_BRIGHT, 0.5)]),
   ("Hero / Header", "linear-gradient(135deg, #142857 → #1a6ef5 → #338dff)",
    [(NAVY_DARK, 0.33), (BLUE_PRIMARY, 0.34), (BLUE_BRIGHT, 0.33)]),
   ("Accent CTA", "linear-gradient(135deg, #f97316, #fb923c)",
    [(ACCENT_PRI, 0.5), (ACCENT_LT, 0.5)]),
   ("Gradient Text", "linear-gradient(135deg, #1a6ef5 → #338dff → #f97316)",
    [(BLUE_PRIMARY, 0.33), (BLUE_BRIGHT, 0.34), (ACCENT_PRI, 0.33)]),
   ("Success", "linear-gradient(135deg, #059669, #10b981)",
    [(EMERALD_DK, 0.5), (EMERALD, 0.5)]),
   ("Logo Badge", "linear-gradient(to bottom right, #1a6ef5, #59b0ff)",
    [(BLUE_PRIMARY, 0.5), (BLUE_LIGHT, 0.5)])]

/-- The segment loop of `build_gradients_slide` (lines 483-489), extracted
as a named function: each stop becomes one solid rectangle of width
`int(total_w * fraction)` placed at the running cursor `cx`, and the
cursor advances by that width.  There is no adjustment of the final
stop's width. -/
def gradient_segments (cx y total_w card_h : ℚ) (color_stops : List (RGB × ℚ)) :
    List SlideOp :=
  match color_stops with
  | [] => []
  | (color, fraction) :: rest =>
      let seg_w : ℤ := pyInt (total_w * fraction)
      SlideOp.shape "rect" cx y (seg_w : ℚ) card_h color none ::
        gradient_segments (cx + (seg_w : ℚ)) y total_w card_h rest

/-- Card origin arithmetic of `build_gradients_slide` (lines 476-480):
the six cards fill column-major — card `i` goes to column `0` for
`i < 3` and column `1` otherwise, and to row `i mod 3`. -/
def grad_card_origin (i : ℕ) : ℚ × ℚ :=
  let col : ℕ := if i < 3 then 0 else 1
  let row : ℕ := i % 3
  (Inches 0.8 + (col : ℚ) * (Inches 5.8 + Inches 0.3),
   Inches 1.65 + (row : ℚ) * (Inches 0.7 + Inches 0.55))

/-- Content of slide 5 after the recurring frame. -/
def gradients_content : List SlideOp :=
  let card_w := Inches 5.8
  let card_h := Inches 0.7
  let start_y := Inches 1.65
  [SlideOp.textbox (Inches 0.8) (Inches 0.5) (Inches 8) (Inches 0.7)
     "Gradients" 32 true false NAVY_DARK "left" "Calibri",
   SlideOp.textbox (Inches 0.8) (Inches 1.1) (Inches 11.7) (Inches 0.4)
     "Signature gradients used across buttons, backgrounds, and accent elements."
     13 false false TEXT_GRAY "left" "Calibri"] ++
  (pptx_gradients.enum.map (fun ig =>
    let col : ℕ := if ig.1 < 3 then 0 else 1
    let row : ℕ := ig.1 % 3
    let x := Inches 0.8 + (col : ℚ) * (card_w + Inches 0.3)
    let y := start_y + (row : ℚ) * (card_h + Inches 0.55)
    gradient_segments x y card_w card_h ig.2.2.2 ++
    [SlideOp.textbox x (y + card_h + Pt 2) card_w (Inches 0.2)
       ig.2.1 11 true false NAVY_DARK "left" "Calibri",
     SlideOp.textbox x (y + card_h + Inches 0.22) card_w (Inches 0.2)
       ig.2.2.1 8 false false TEXT_MUTED "left" "Calibri"])).flatten ++
  [SlideOp.notes "[KEY POINT]: We have 6 signature gradients for different use cases.\n[DATA]: Primary CTA uses brand-600 → brand-500, Hero uses navy → brand-600 → brand-500.\n[TRANSITION]: Let's examine our typography system."]

/-- Slide 5 — `build_gradients_slide` (lines 440-500). -/
def build_gradients_slide (logo_exists : Bool) : List SlideOp :=
  [SlideOp.bg BG_ALT] ++
  add_accent_bar (Inches 0) BLUE_PRIMARY (Pt 4) ++
  add_logo_header logo_exists ++
  add_footer_bar ++
  add_slide_number 5 12 ++
  gradients_content

/-- Inter weight samples of slide 6 (lines 531-534). -/
def weights : List (String × Bool) :=
  [("Light 300", false), ("Regular 400", false), ("Medium 500", false),
   ("SemiBold 600", true), ("Bold 700", true), ("ExtraBold 800", true)]

/-- Type-scale rows of slide 6 (lines 562-569). -/
def scale_items : List (String × String × String) :=
  [("Hero H1", "48-60px", "ExtraBold"),
   ("Section H2", "36-40px", "Bold"),
   ("Card H3", "20-24px", "SemiBold"),
   ("Body", "14-16px", "Regular"),
   ("Small/Label", "12-13px", "Medium"),
   ("Caption", "10-11px", "Medium, uppercase")]

/-- Content of slide 6 after the recurring frame. -/
def typography_content : List SlideOp :=
  [SlideOp.textbox (Inches 0.8) (Inches 0.5) (Inches 8) (Inches 0.7)
     "Typography" 32 true false NAVY_DARK "left" "Calibri",
   SlideOp.textbox (Inches 0.8) (Inches 1.1) (Inches 11.7) (Inches 0.4)
     "Dual typeface system — clean sans-serif for body, elegant serif for display."
     13 false false TEXT_GRAY "left" "Calibri",
   SlideOp.shape "rect" (Inches 0.8) (Inches 1.65) (Inches 7.5) (Inches 3.2) WHITE
     (some (BORDER, Pt 0.5)),
   SlideOp.textbox (Inches 1.0) (Inches 1.75) (Inches 7) (Inches 0.4)
     "Inter — Primary Typeface (Sans-Serif)" 18 true false BLUE_PRIMARY "left" "Calibri",
   SlideOp.textbox (Inches 1.0) (Inches 2.15) (Inches 7) (Inches 0.3)
     "Body text, navigation, buttons, labels, all UI elements" 11 false true TEXT_GRAY "left" "Calibri"] ++
  (weights.enum.map (fun iw =>
    let y := Inches 2.55 + (iw.1 : ℚ) * Inches 0.35
    [SlideOp.textbox (Inches 1.2) y (Inches 1.8) (Inches 0.3)
       iw.2.1 10 false false TEXT_MUTED "left" "Calibri",
     SlideOp.textbox (Inches 3.0) y (Inches 5) (Inches 0.3)
       "Smart Financial Solutions for a Better Tomorrow" 13 iw.2.2 false TEXT_DARK "left" "Calibri"])).flatten ++
  [SlideOp.shape "rect" (Inches 0.8) (Inches 5.0) (Inches 7.5) (Inches 1.3) WHITE
     (some (BORDER, Pt 0.5)),
   SlideOp.textbox (Inches 1.0) (Inches 5.1) (Inches 7) (Inches 0.4)
     "Playfair Display — Display Typeface (Serif)" 18 true false BLUE_PRIMARY "left" "Calibri",
   SlideOp.textbox (Inches 1.0) (Inches 5.5) (Inches 7) (Inches 0.3)
     "Hero headlines and special emphasis. Bold (700) and ExtraBold (800)." 11 false true TEXT_GRAY "left" "Calibri",
   SlideOp.textbox (Inches 1.0) (Inches 5.85) (Inches 7) (Inches 0.35)
     "Trusted Partner. Swift Solutions." 20 true false NAVY_DARK "left" "Calibri",
   SlideOp.textbox (Inches 8.6) (Inches 1.65) (Inches 4) (Inches 0.4)
     "Type Scale" 18 true false NAVY_DARK "left" "Calibri",
   SlideOp.shape "rect" (Inches 8.6) (Inches 2.1) (Inches 4.2) (Inches 3.4) WHITE
     (some (BORDER, Pt 0.5))] ++
  (scale_items.enum.map (fun it =>
    let y := Inches 2.2 + (it.1 : ℚ) * Inches 0.52
    [SlideOp.textbox (Inches 8.8) y (Inches 1.5) (Inches 0.25)
       it.2.1 11 true false BLUE_PRIMARY "left" "Calibri",
     SlideOp.textbox (Inches 10.3) y (Inches 1.0) (Inches 0.25)
       it.2.2.1 10 false false TEXT_DARK "left" "Calibri",
     SlideOp.textbox (Inches 11.3) y (Inches 1.3) (Inches 0.25)
       it.2.2.2 10 false false TEXT_GRAY "left" "Calibri"])).flatten ++
  [SlideOp.textbox (Inches 8.6) (Inches 5.6) (Inches 4.2) (Inches 0.8)
     "Google Fonts:\nInter: wght@300;400;500;600;700;800;900\nPlayfair Display: wght@700;800"
     9 false false TEXT_MUTED "left" "Calibri",
   SlideOp.notes "[KEY POINT]: Two fonts — Inter for everything, Playfair Display for special headlines.\n[DATA]: Inter has 7 weights (300-900). Playfair Display has Bold and ExtraBold.\n[TRANSITION]: Let's look at how these translate into UI components."]

/-- Slide 6 — `build_typography_slide` (lines 503-591). -/
def build_typography_slide (logo_exists : Bool) : List SlideOp :=
  [SlideOp.bg BG_ALT] ++
  add_accent_bar (Inches 0) BLUE_PRIMARY (Pt 4) ++
  add_logo_header logo_exists ++
  add_footer_bar ++
  add_slide_number 6 12 ++
  typography_content

/-- Button-variant data of slide 7 (lines 611-616):
`(text, background color, text color, label)`. -/
def buttons : List (String × RGB × RGB × String) :=
  [("Get Started →", BLUE_PRIMARY, WHITE, "Primary"),
   ("Explore Services", WHITE, BLUE_PRIMARY, "Secondary"),
   ("Apply Now", ACCENT_PRI, WHITE, "Accent"),
   ("Learn More", NAVY_DARK, WHITE, "Dark")]

/-- UI-effect card data of slide 7 (lines 642-647). -/
def effects : List (String × String × String) :=
  [("Glass Morphism", "bg: rgba(255,255,255,0.08)\nbackdrop-filter: blur(20px)\nborder: 1px solid rgba(255,255,255,0.15)", "Hero stats, overlaid cards"),
   ("Card Hover", "transform: translateY(-8px)\nbox-shadow: 0 25px 60px rgba(0,0,0,0.12)", "Service cards, feature cards"),
   ("Pulse Glow", "box-shadow: 0 0 20-40px\nrgba(26,110,245, 0.3-0.6)", "Active states, attention draw"),
   ("Scroll Reveal", "opacity: 0→1\ntranslateY(30px)→0\ntransition: 0.8s ease", "Section entrance animations")]

/-- Content of slide 7 after the recurring frame. -/
def buttons_ui_content : List SlideOp :=
  [SlideOp.textbox (Inches 0.8) (Inches 0.5) (Inches 8) (Inches 0.7)
     "Buttons & UI Components" 32 true false NAVY_DARK "left" "Calibri",
   SlideOp.textbox (Inches 0.8) (Inches 1.3) (Inches 4) (Inches 0.4)
     "Button Variants" 18 true false NAVY_DARK "left" "Calibri"] ++
  (buttons.enum.map (fun ib =>
    let x := Inches 0.8 + (ib.1 : ℚ) * Inches 2.8
    let y := Inches 1.8
    [SlideOp.shape "roundRect" x y (Inches 2.4) (Inches 0.55) ib.2.2.1
       (if ib.2.2.1 = WHITE then some (BLUE_PRIMARY, Pt 2) else none),
     SlideOp.textbox x (y + Pt 4) (Inches 2.4) (Inches 0.45)
       ib.2.1 13 true false ib.2.2.2.1 "center" "Calibri",
     SlideOp.textbox x (y + Inches 0.6) (Inches 2.4) (Inches 0.2)
       ib.2.2.2.2 9 false false TEXT_MUTED "center" "Calibri"])).flatten ++
  [SlideOp.textbox (Inches 0.8) (Inches 2.7) (Inches 11) (Inches 0.3)
     "Border-radius: 100px (pill)  •  Padding: 12px 28px  •  Font: Inter SemiBold 14px  •  Transition: 300ms"
     10 false true TEXT_MUTED "left" "Calibri",
   SlideOp.textbox (Inches 0.8) (Inches 3.2) (Inches 4) (Inches 0.4)
     "UI Effects" 18 true false NAVY_DARK "left" "Calibri"] ++
  (effects.enum.map (fun ie =>
    let col : ℕ := ie.1 % 2
    let row : ℕ := ie.1 / 2
    let x := Inches 0.8 + (col : ℚ) * Inches 6.3
    let y := Inches 3.7 + (row : ℚ) * Inches 1.55
    [SlideOp.shape "rect" x y (Inches 5.9) (Inches 1.35) WHITE (some (BORDER, Pt 0.5)),
     SlideOp.shape "rect" x y (Inches 5.9) (Pt 3) BLUE_PRIMARY none,
     SlideOp.textbox (x + Inches 0.2) (y + Inches 0.1) (Inches 2) (Inches 0.3)
       ie.2.1 13 true false NAVY_DARK "left" "Calibri",
     SlideOp.textbox (x + Inches 0.2) (y + Inches 0.4) (Inches 3.2) (Inches 0.8)
       ie.2.2.1 9 false false TEXT_GRAY "left" "Calibri",
     SlideOp.textbox (x + Inches 3.5) (y + Inches 0.4) (Inches 2.2) (Inches 0.8)
       ("Usage:\n" ++ ie.2.2.2) 10 false false BLUE_PRIMARY "left" "Calibri"])).flatten ++
  [SlideOp.notes "[KEY POINT]: 4 button variants and 4 key UI effects define our component system.\n[DATA]: All buttons use pill shape (100px radius), transitions at 300ms.\n[TRANSITION]: Let's discuss our core brand values."]

/-- Slide 7 — `build_buttons_ui_slide` (lines 594-671).  A white button
gets a 2pt brand-blue outline (the `if bg_color == WHITE` at line 624). -/
def build_buttons_ui_slide (logo_exists : Bool) : List SlideOp :=
  [SlideOp.bg BG_ALT] ++
  add_accent_bar (Inches 0) BLUE_PRIMARY (Pt 4) ++
  add_logo_header logo_exists ++
  add_footer_bar ++
  add_slide_number 7 12 ++
  buttons_ui_content

/-- Brand-value card data of slide 8 (lines 691-700):
`(title, description, accent color, icon)`.  The icon string is carried
in the source data but never drawn (the icon circle is a plain oval). -/
def values_pptx : List (String × String × RGB × String) :=
  [("Trust", "RBI regulated partners, IRDAI registered, ISO 27001 compliant. Security and compliance are at our core.", BLUE_PRIMARY, "🛡"),
   ("Speed", "Swift paperless loan approvals. Quick turnaround powered by 50+ banking partners.", LOGO_GOLD, "⚡"),
   ("Expertise", "24/7 expert support. 500+ Cr loans disbursed. 10,000+ happy customers served.", EMERALD, "🎯"),
   ("Simplicity", "Clean, modern, and accessible. Making financial decisions easy for every Indian.", ACCENT_PRI, "✨")]

/-- The card loop of `build_brand_values_slide` (lines 705-728), over an
arbitrary item list: card `i` goes to column `i mod 2`, row `i div 2`, at
`x = Inches(0.8) + col * (card_w + Inches(0.3))`,
`y = Inches(1.65) + row * (card_h + Inches(0.25))`. -/
def brand_values_cards (vals : List (String × String × RGB × String)) : List SlideOp :=
  let card_w := Inches 5.8
  let card_h := Inches 2.3
  (vals.enum.map (fun iv =>
    let col : ℕ := iv.1 % 2
    let row : ℕ := iv.1 / 2
    let x := Inches 0.8 + (col : ℚ) * (card_w + Inches 0.3)
    let y := Inches 1.65 + (row : ℚ) * (card_h + Inches 0.25)
    [SlideOp.shape "rect" x y card_w card_h WHITE (some (BORDER, Pt 0.5)),
     SlideOp.shape "rect" x y card_w (Pt 5) iv.2.2.2.1 none,
     SlideOp.shape "oval" (x + Inches 0.3) (y + Inches 0.3) (Inches 0.7) (Inches 0.7)
       iv.2.2.2.1 none,
     SlideOp.textbox (x + Inches 1.2) (y + Inches 0.35) (Inches 4) (Inches 0.4)
       iv.2.1 22 true false NAVY_DARK "left" "Calibri",
     SlideOp.textbox (x + Inches 0.3) (y + Inches 1.15) (card_w - Inches 0.6) (Inches 0.9)
       iv.2.2.1 13 false false TEXT_GRAY "left" "Calibri"])).flatten

/-- Content of slide 8 after the recurring frame. -/
def brand_values_content : List SlideOp :=
  [SlideOp.textbox (Inches 0.8) (Inches 0.5) (Inches 8) (Inches 0.7)
     "Brand Values" 32 true false NAVY_DARK "left" "Calibri",
   SlideOp.textbox (Inches 0.8) (Inches 1.1) (Inches 11.7) (Inches 0.4)
     "Four pillars that define everything we do at CredSuvidha."
     13 false false TEXT_GRAY "left" "Calibri"] ++
  brand_values_cards values_pptx ++
  [SlideOp.notes "[KEY POINT]: Trust, Speed, Expertise, and Simplicity are our four brand pillars.\n[DATA]: These values guide every decision from product design to customer service.\n[TRANSITION]: Let's wrap up with contact info and compliance details."]

/-- Slide 8 — `build_brand_values_slide` (lines 674-733). -/
def build_brand_values_slide (logo_exists : Bool) : List SlideOp :=
  [SlideOp.bg BG_ALT] ++
  add_accent_bar (Inches 0) BLUE_PRIMARY (Pt 4) ++
  add_logo_header logo_exists ++
  add_footer_bar ++
  add_slide_number 8 12 ++
  brand_values_content

/-- Contact rows of slide 9 (lines 757-762). -/
def contacts : List (String × String) :=
  [("Phone", "+91 93076 73391"),
   ("Email", "info@credsuvidha.com"),
   ("Website", "www.credsuvidha.com"),
   ("Social", "Facebook • Twitter/X • LinkedIn • Instagram")]

/-- Compliance badges of slide 9 (lines 779-783). -/
def badges : List (String × String) :=
  [("RBI Regulated Partners", "All banking partners regulated by Reserve Bank of India"),
   ("IRDAI Registered", "Insurance products through IRDAI registered entities"),
   ("ISO 27001 Compliant", "Information security management system compliance")]

/-- Content of slide 9 after the recurring frame. -/
def contact_compliance_content : List SlideOp :=
  [SlideOp.textbox (Inches 0.8) (Inches 0.5) (Inches 8) (Inches 0.7)
     "Contact & Compliance" 32 true false NAVY_DARK "left" "Calibri",
   SlideOp.shape "rect" (Inches 0.8) (Inches 1.4) (Inches 5.8) (Inches 3.5) WHITE
     (some (BORDER, Pt 0.5)),
   SlideOp.shape "rect" (Inches 0.8) (Inches 1.4) (Inches 5.8) (Pt 4) BLUE_PRIMARY none,
   SlideOp.textbox (Inches 1.2) (Inches 1.6) (Inches 5) (Inches 0.4)
     "Contact Information" 20 true false NAVY_DARK "left" "Calibri"] ++
  (contacts.enum.map (fun ic =>
    let y := Inches 2.2 + (ic.1 : ℚ) * Inches 0.55
    [SlideOp.textbox (Inches 1.4) y (Inches 1.5) (Inches 0.3)
       (ic.2.1 ++ ":") 13 true false BLUE_PRIMARY "left" "Calibri",
     SlideOp.textbox (Inches 3.0) y (Inches 3.5) (Inches 0.3)
       ic.2.2 13 false false TEXT_DARK "left" "Calibri"])).flatten ++
  [SlideOp.shape "rect" (Inches 7.0) (Inches 1.4) (Inches 5.5) (Inches 3.5) WHITE
     (some (BORDER, Pt 0.5)),
   SlideOp.shape "rect" (Inches 7.0) (Inches 1.4) (Inches 5.5) (Pt 4) EMERALD none,
   SlideOp.textbox (Inches 7.4) (Inches 1.6) (Inches 5) (Inches 0.4)
     "Compliance & Certifications" 20 true false NAVY_DARK "left" "Calibri"] ++
  (badges.enum.map (fun ib =>
    let y := Inches 2.2 + (ib.1 : ℚ) * Inches 0.75
    [SlideOp.shape "oval" (Inches 7.4) (y + Pt 2) (Inches 0.3) (Inches 0.3) EMERALD none,
     SlideOp.textbox (Inches 7.4) (y + Pt 2) (Inches 0.3) (Inches 0.3)
       "✓" 10 true false WHITE "center" "Calibri",
     SlideOp.textbox (Inches 7.9) y (Inches 4.3) (Inches 0.3)
       ib.2.1 13 true false NAVY_DARK "left" "Calibri",
     SlideOp.textbox (Inches 7.9) (y + Inches 0.3) (Inches 4.3) (Inches 0.3)
       ib.2.2 10 false false TEXT_GRAY "left" "Calibri"])).flatten ++
  [SlideOp.shape "rect" (Inches 0.8) (Inches 5.2) (Inches 11.7) (Inches 0.8) BLUE_TINT
     (some (BLUE_PALE, Pt 0.5)),
   SlideOp.textbox (Inches 1.0) (Inches 5.3) (Inches 11.3) (Inches 0.6)
     "Disclaimer: CredSuvidha acts as a facilitator. All financial products are subject to respective institution policies. Interest rates may vary based on individual eligibility and market conditions."
     10 false true TEXT_GRAY "center" "Calibri",
   SlideOp.notes "[KEY POINT]: Contact us at +91 93076 73391 or info@credsuvidha.com.\n[DATA]: We maintain RBI, IRDAI, and ISO 27001 compliance across all partners.\n[TRANSITION]: Finally, let's review the technical specifications."]

/-- Slide 9 — `build_contact_compliance_slide` (lines 736-810). -/
def build_contact_compliance_slide (logo_exists : Bool) : List SlideOp :=
  [SlideOp.bg BG_ALT] ++
  add_accent_bar (Inches 0) BLUE_PRIMARY (Pt 4) ++
  add_logo_header logo_exists ++
  add_footer_bar ++
  add_slide_number 9 12 ++
  contact_compliance_content

/-- Technical-spec card data of slide 10 (lines 830-837). -/
def specs : List (String × String × RGB) :=
  [("CSS Framework", "Tailwind CSS via CDN\n(cdn.tailwindcss.com) with custom\nbrand theme configuration", BLUE_PRIMARY),
   ("Typography", "Google Fonts: Inter (300-900) +\nPlayfair Display (700-800)\nPreconnected for performance", LOGO_GOLD),
   ("JavaScript", "Vanilla JS — scroll reveal,\ncounter animation, mobile menu,\nsmooth scroll, form handling", EMERALD),
   ("Architecture", "Single-page HTML application\nNo build step required\nAll-in-one file deployment", ACCENT_PRI),
   ("Hosting", "Netlify (static hosting)\nCustom domain: www.credsuvidha.com\nGit-based deployment", NAVY),
   ("Version Control", "Git repository\nPushed to remote\nContinuous deployment via Netlify", BLUE_BRIGHT)]

/-- Content of slide 10 after the recurring frame. -/
def technical_content : List SlideOp :=
  let card_w := Inches 3.7
  let card_h := Inches 2.1
  [SlideOp.textbox (Inches 0.8) (Inches 0.5) (Inches 8) (Inches 0.7)
     "Technical Specifications" 32 true false NAVY_DARK "left" "Calibri",
   SlideOp.textbox (Inches 0.8) (Inches 1.1) (Inches 11.7) (Inches 0.4)
     "Technology stack and dependencies powering the CredSuvidha website."
     13 false false TEXT_GRAY "left" "Calibri"] ++
  (specs.enum.map (fun iv =>
    let col : ℕ := iv.1 % 3
    let row : ℕ := iv.1 / 3
    let x := Inches 0.8 + (col : ℚ) * (card_w + Inches 0.25)
    let y := Inches 1.65 + (row : ℚ) * (card_h + Inches 0.25)
    [SlideOp.shape "rect" x y card_w card_h WHITE (some (BORDER, Pt 0.5)),
     SlideOp.shape "rect" x y (Pt 5) card_h iv.2.2.2 none,
     SlideOp.textbox (x + Inches 0.3) (y + Inches 0.2) (card_w - Inches 0.5) (Inches 0.35)
       iv.2.1 15 true false NAVY_DARK "left" "Calibri",
     SlideOp.textbox (x + Inches 0.3) (y + Inches 0.6) (card_w - Inches 0.5) (Inches 1.3)
       iv.2.2.1 12 false false TEXT_GRAY "left" "Calibri"])).flatten ++
  [SlideOp.shape "rect" (Inches 0.8) (Inches 6.0) (Inches 11.7) (Inches 0.6) BLUE_TINT
     (some (BLUE_PALE, Pt 0.5)),
   SlideOp.textbox (Inches 1.0) (Inches 6.05) (Inches 11.3) (Inches 0.5)
     "Assets: logo.png • assets/images/logo.png • assets/brandkit/brand-guidelines.html • assets/brandkit/brand-tokens.json • assets/brandkit/CredSuvidha-BrandKit.pdf • assets/brandkit/CredSuvidha-BrandKit.pptx"
     9 false false TEXT_GRAY "center" "Calibri",
   SlideOp.notes "[KEY POINT]: The website is a single HTML file deployed on Netlify with no build step.\n[DATA]: Tailwind CSS + Google Fonts + Vanilla JS. All resources are CDN-based.\n[TRANSITION]: Let's summarize what we've covered in this brand kit."]

/-- Slide 10 — `build_technical_slide` (lines 813-872). -/
def build_technical_slide (logo_exists : Bool) : List SlideOp :=
  [SlideOp.bg BG_ALT] ++
  add_accent_bar (Inches 0) BLUE_PRIMARY (Pt 4) ++
  add_logo_header logo_exists ++
  add_footer_bar ++
  add_slide_number 10 12 ++
  technical_content

/-- Takeaway rows of slide 11 (lines 888-896). -/
def takeaways : List (String × String × RGB) :=
  [("Logo", "Interlocking C&S with growth arrow — navy + gold on light backgrounds", BLUE_PRIMARY),
   ("Colors", "Primary #1A6EF5  •  Navy #142857  •  Accent #F97316  •  Emerald #10B981", NAVY),
   ("Typography", "Inter (sans-serif) for everything  •  Playfair Display (serif) for display", LOGO_GOLD),
   ("Buttons", "4 variants: Primary, Secondary, Accent, Dark — all pill-shaped (100px radius)", EMERALD),
   ("Values", "Trust, Speed, Expertise, Simplicity — every decision guided by these pillars", ACCENT_PRI),
   ("Compliance", "RBI Regulated  •  IRDAI Registered  •  ISO 27001 Compliant", BLUE_PRIMARY),
   ("Tech Stack", "Tailwind CSS + Inter/Playfair fonts + Vanilla JS → Netlify deployment", NAVY)]

/-- Content of slide 11 after the recurring frame. -/
def summary_content : List SlideOp :=
  [SlideOp.textbox (Inches 0.8) (Inches 0.5) (Inches 8) (Inches 0.7)
     "Key Takeaways" 32 true false NAVY_DARK "left" "Calibri"] ++
  (takeaways.enum.map (fun it =>
    let y := Inches 1.4 + (it.1 : ℚ) * Inches 0.72
    [SlideOp.shape "rect" (Inches 0.8) y (Inches 11.7) (Inches 0.6) WHITE
       (some (BORDER, Pt 0.5)),
     SlideOp.shape "rect" (Inches 0.8) y (Pt 5) (Inches 0.6) it.2.2.2 none,
     SlideOp.textbox (Inches 1.2) (y + Pt 4) (Inches 1.5) (Inches 0.4)
       (s!"●  {it.2.1}") 13 true false it.2.2.2 "left" "Calibri",
     SlideOp.textbox (Inches 2.8) (y + Pt 4) (Inches 9.5) (Inches 0.4)
       it.2.2.1 12 false false TEXT_DARK "left" "Calibri"])).flatten ++
  [SlideOp.textbox (Inches 0.8) (Inches 6.5) (Inches 11.7) (Inches 0.35)
     "This brand kit is a living document — update as CredSuvidha evolves. Consistency builds trust."
     12 true true NAVY "center" "Calibri",
   SlideOp.notes "[KEY POINT]: Recap of all brand kit elements covered.\n[DATA]: 7 key areas — logo, colors, typography, buttons, values, compliance, tech.\n[TRANSITION]: Thank you for reviewing the CredSuvidha brand kit."]

/-- Slide 11 — `build_summary_slide` (lines 875-920). -/
def build_summary_slide (logo_exists : Bool) : List SlideOp :=
  [SlideOp.bg BLUE_TINT] ++
  add_accent_bar (Inches 0) NAVY_DARK (Pt 5) ++
  add_logo_header logo_exists ++
  add_footer_bar ++
  add_slide_number 11 12 ++
  summary_content

/-- Slide 12 — `build_thankyou_slide` (lines 923-963).  Note: this slide
calls none of the frame helpers; it has no accent bar, no corner logo, no
footer bar and no slide number. -/
def build_thankyou_slide (logo_exists : Bool) : List SlideOp :=
  [SlideOp.bg NAVY_DARK,
   SlideOp.shape "rect" (Inches 0) (Inches 3.2) (Inches 6.667) (Pt 3) BLUE_PRIMARY none,
   SlideOp.shape "rect" (Inches 6.667) (Inches 3.2) (Inches 6.666) (Pt 3) LOGO_GOLD none] ++
  (if logo_exists then
    [SlideOp.picture LOGO_PATH (Inches 4.2) (Inches 0.5) (Inches 5.0)]
   else []) ++
  [SlideOp.textbox (Inches 1) (Inches 3.5) (Inches 11.333) (Inches 0.9)
     "Thank You" 44 true false WHITE "center" "Calibri",
   SlideOp.textbox (Inches 1) (Inches 4.5) (Inches 11.333) (Inches 0.5)
     "+91 93076 73391  •  info@credsuvidha.com  •  www.credsuvidha.com"
     16 false false BLUE_LIGHT "center" "Calibri",
   SlideOp.runs (Inches 1) (Inches 5.3) (Inches 11.333) (Inches 0.5) "center"
     [("Trusted Partner. ", 20, true, WHITE), ("Swift Solutions.", 20, true, LOGO_GOLD)],
   SlideOp.textbox (Inches 1) (Inches 6.3) (Inches 11.333) (Inches 0.3)
     "© 2025 CredSuvidha. All rights reserved." 10 false false TEXT_MUTED "center" "Calibri",
   SlideOp.shape "rect" (Inches 0) (Inches 7.2) (Inches 13.333) (Inches 0.3) BLUE_PRIMARY none,
   SlideOp.notes "[KEY POINT]: Thank the audience for their time.\n[DATA]: Provide contact details for follow-up questions.\nFor brand kit updates or questions, reach out to info@credsuvidha.com."]

/-- The presentation object saved by `build_presentation`. -/
structure Pres where
  slide_width : ℚ
  slide_height : ℚ
  slides : List (List SlideOp)

/-- Embedding of `build_presentation` (lines 970-994): a 13.333in × 7.5in
deck of twelve slides, built in order. -/
def build_presentation (logo_exists : Bool) (date : String) : Pres :=
  { slide_width := Inches 13.333,
    slide_height := Inches 7.5,
    slides :=
      [build_title_slide logo_exists date,
       build_brand_overview logo_exists,
       build_logo_slide logo_exists,
       build_color_palette_slide logo_exists,
       build_gradients_slide logo_exists,
       build_typography_slide logo_exists,
       build_buttons_ui_slide logo_exists,
       build_brand_values_slide logo_exists,
       build_contact_compliance_slide logo_exists,
       build_technical_slide logo_exists,
       build_summary_slide logo_exists,
       build_thankyou_slide logo_exists] }

/-- The module-level control flow of `generate_brandkit_pptx.py`: the
script never opens the brand-token file — its paths section (lines 14-18)
only computes `LOGO_PATH` and `OUTPUT_PATH` — so the build proceeds
regardless of the token file's state. -/
def run_pptx_generator (_tf : TokenFile) (logo_exists : Bool) (date : String) :
    Except BuildError Pres :=
  .ok (build_presentation logo_exists date)

/-- Width field of a shape operation (0 for non-shapes); used to read the
emitted gradient segment widths. -/
def SlideOp.width_of : SlideOp → ℚ
  | .shape _ _ _ w _ _ _ => w
  | _ => 0

/-- Left position of a shape operation (0 for non-shapes). -/
def SlideOp.left_of : SlideOp → ℚ
  | .shape _ l _ _ _ _ _ => l
  | _ => 0

/-- The row-major grid placement arithmetic used by the generator's card
layouts (`build_brand_values_slide` lines 705-709; the same pattern with
other literals appears in the UI-effects grid, lines 649-653, and the
technical-specs grid, lines 842-846), with the literals as parameters:
`col = i mod columns`, `row = i div columns`,
`x = originX + col * (cellW + gutterX)`,
`y = originY + row * (cellH + gutterY)`. -/
def grid_origin (originX originY cellW cellH gutterX gutterY : ℚ)
    (columns i : ℕ) : ℚ × ℚ :=
  let col := i % columns
  let row := i / columns
  (originX + (col : ℚ) * (cellW + gutterX), originY + (row : ℚ) * (cellH + gutterY))

/-- The cell (column, row) assigned to item `i` by the row-major grid
layout. -/
def grid_cell (columns i : ℕ) : ℕ × ℕ :=
  (i % columns, i / columns)

end Pptx

/-! Verification of the claims. -/

/-- C3 (counterexample): the claim says every palette table row renders
the hex value "as an uppercased string" in both generators; but the PDF's
`create_color_swatch_table` places the stored hex string verbatim in the
hex column, so the "800 Deep Blue" row of the brand-blue table renders
"#1747b6", which differs from its uppercased form "#1747B6". -/
theorem c3_hex_uppercase_counterexample :
    ((Pdf.create_color_swatch_table Pdf.brand_blue_colors).data.get? 3 =
      some [Pdf.Cell.draw ⟨(14 : ℚ) + 4, (14 : ℚ) + 4,
              [Pdf.GElem.rect 2 2 14 14 (some (Pdf.HexColor "#1747b6"))
                 (some (Pdf.HexColor "#D1D5DB")) 0.5]⟩,
            Pdf.Cell.str "800 Deep Blue", Pdf.Cell.str "#1747b6",
            Pdf.Cell.str "Strong emphasis"]) ∧
    pyUpper "#1747b6" = "#1747B6" ∧ ("#1747b6" : String) ≠ "#1747B6" :=
  ⟨rfl, by decide, by decide⟩

/-- C3 (amended): every palette row renders the hex value with its
leading `#`; the PPTX palette slide shows it uppercased (explicitly via
`.upper()` for the brand-blue, accent and emerald groups; the logo-color
group's hex strings are stored uppercase), while the PDF's swatch tables
render the stored hex string verbatim (lowercase where stored lowercase),
alongside the swatch, the name and the usage note. -/
theorem c3_hex_rendering :
    (∀ (colors_list : List (String × String × String)) (k : ℕ),
      ((Pdf.create_color_swatch_table colors_list).data.get? (k + 1)).map
          (fun row => row.get? 2) =
        (colors_list.get? k).map (fun t => some (Pdf.Cell.str t.2.1))) ∧
    ((Pdf.brand_blue_colors ++ Pdf.logo_colors ++ Pdf.accent_colors ++
      Pdf.emerald_colors ++ Pdf.neutral_colors).all
        (fun t => decide (t.2.1.data.head? = some '#')) = true) ∧
    ((Pptx.brand_blues.all (fun p =>
        (Pptx.build_color_palette_slide true).any (fun o =>
          decide (Pptx.SlideOp.textOf o = some (pyUpper p.1))))) = true) ∧
    ((Pptx.pptx_accent_colors.all (fun p =>
        (Pptx.build_color_palette_slide true).any (fun o =>
          decide (Pptx.SlideOp.textOf o = some (p.2 ++ "  " ++ pyUpper p.1))))) = true) ∧
    ((Pptx.pptx_emerald_colors.all (fun p =>
        (Pptx.build_color_palette_slide true).any (fun o =>
          decide (Pptx.SlideOp.textOf o = some (p.2 ++ "  " ++ pyUpper p.1))))) = true) ∧
    ((Pptx.pptx_logo_colors.all (fun p =>
        decide (pyUpper p.1 = p.1) &&
        (Pptx.build_color_palette_slide true).any (fun o =>
          decide (Pptx.SlideOp.textOf o = some (p.2 ++ "  " ++ p.1))))) = true) := by
  refine ⟨?_, rfl, rfl, rfl, rfl, rfl⟩
  intro colors_list k
  simp [Pdf.create_color_swatch_table, List.getElem?_map, Option.map_map]
  rfl

/-- C4 (confirmed): the PDF palette table consists of the fixed header
row followed by one data row per input triple in input order (no
sorting), and the `ROWBACKGROUNDS` command gives data row `k` (0-based)
background `WHITE` when `k` is even and `BLUE_TINT` when `k` is odd, so
the first data row is white. -/
theorem c4_palette_order_zebra (colors_list : List (String × String × String)) (k : ℕ) :
    ((Pdf.create_color_swatch_table colors_list).data.get? 0 =
      some [Pdf.Cell.str "Swatch", Pdf.Cell.str "Name", Pdf.Cell.str "Hex Code",
            Pdf.Cell.str "Usage"]) ∧
    ((Pdf.create_color_swatch_table colors_list).data.get? (k + 1) =
      (colors_list.get? k).map (fun t =>
        [Pdf.Cell.draw ⟨(14 : ℚ) + 4, (14 : ℚ) + 4,
            [Pdf.GElem.rect 2 2 14 14 (some (Pdf.HexColor t.2.1))
               (some (Pdf.HexColor "#D1D5DB")) 0.5]⟩,
         Pdf.Cell.str t.1, Pdf.Cell.str t.2.1, Pdf.Cell.str t.2.2])) ∧
    (k < colors_list.length →
      Pdf.applied_row_background (Pdf.create_color_swatch_table colors_list) (k + 1) =
        some (if k % 2 = 0 then Pdf.WHITE else Pdf.BLUE_TINT)) := by
  refine ⟨rfl, ?_, ?_⟩
  · simp [Pdf.create_color_swatch_table, List.getElem?_map]
  · intro hk
    simp only [Pdf.applied_row_background, Pdf.create_color_swatch_table,
      List.foldl_cons, List.foldl_nil, List.length_cons, List.length_map]
    rw [show Pdf.resolveRow (colors_list.length + 1) 1 = 1 from by simp [Pdf.resolveRow],
      show Pdf.resolveRow (colors_list.length + 1) (-1) = colors_list.length from by
        simp [Pdf.resolveRow]]
    rw [if_pos ⟨by omega, by omega⟩]
    simp only [List.length_cons, List.length_nil]
    have ht : (((k + 1 : ℕ) : ℤ) - 1).toNat = k := by omega
    rw [ht]
    rcases Nat.even_or_odd k with hpar | hpar
    · rw [Nat.even_iff] at hpar
      rw [hpar]
      simp
    · rw [Nat.odd_iff] at hpar
      rw [hpar]
      simp

/-- Witness for C4: on the brand-blue palette, data row 0 ("950 Navy
Dark") is white and data row 1 ("900 Navy") is blue-tinted. -/
theorem c4_palette_order_zebra_witness :
    (0 < Pdf.brand_blue_colors.length ∧ 1 < Pdf.brand_blue_colors.length) ∧
    Pdf.applied_row_background (Pdf.create_color_swatch_table Pdf.brand_blue_colors) 1 =
      some Pdf.WHITE ∧
    Pdf.applied_row_background (Pdf.create_color_swatch_table Pdf.brand_blue_colors) 2 =
      some Pdf.BLUE_TINT := by
  refine ⟨⟨by decide, by decide⟩, ?_, ?_⟩
  · simpa using (c4_palette_order_zebra Pdf.brand_blue_colors 0).2.2 (by decide)
  · simpa using (c4_palette_order_zebra Pdf.brand_blue_colors 1).2.2 (by decide)

/-- C5 (confirmed): when the logo asset is absent, every logo-drawing
step of both generators is skipped silently and everything else is
unchanged.  In the PDF: the cover and the recurring page frame draw the
same operations minus exactly the `drawImage` calls, and the story equals
the with-logo story minus exactly the logo showcase block.  In the PPTX:
the corner-logo helper, the title slide and the thank-you slide drop
exactly their `add_picture` calls, the logo slide drops exactly its
corner logo and its showcase block, and with the logo absent no slide of
the whole deck references a picture.  All builders are total functions,
so no error is raised. -/
theorem c5_missing_logo_skipped :
    (∀ d : String, Pdf.draw_cover_page false d =
      (Pdf.draw_cover_page true d).filter (fun o => !o.isImage)) ∧
    (∀ n : ℕ, Pdf.draw_header_footer false n =
      (Pdf.draw_header_footer true n).filter (fun o => !o.isImage)) ∧
    (∃ pre post, Pdf.build_pdf_story true = pre ++ Pdf.pdf_logo_showcase ++ post ∧
      Pdf.build_pdf_story false = pre ++ post) ∧
    ((Pdf.build_pdf_story false).all (fun fl => !fl.hasImage) = true) ∧
    (Pptx.add_logo_header false =
      (Pptx.add_logo_header true).filter (fun o => !o.isPicture)) ∧
    (∀ d : String, Pptx.build_title_slide false d =
      (Pptx.build_title_slide true d).filter (fun o => !o.isPicture)) ∧
    (Pptx.build_thankyou_slide false =
      (Pptx.build_thankyou_slide true).filter (fun o => !o.isPicture)) ∧
    (∃ pre mid post,
      Pptx.build_logo_slide true =
        pre ++ Pptx.add_logo_header true ++ mid ++ Pptx.pptx_logo_showcase ++ post ∧
      Pptx.build_logo_slide false = pre ++ mid ++ post) ∧
    (∀ d : String, ((Pptx.build_presentation false d).slides.all
      (fun s => s.all (fun o => !o.isPicture))) = true) := by
  refine ⟨fun d => rfl, fun n => rfl, ?_, rfl, rfl, fun d => rfl, rfl, ?_, fun d => rfl⟩
  · exact ⟨[Pdf.Flow.pageBreak] ++ Pdf.story_page2 ++
      [Pdf.Flow.para "Logo" "SectionHeader",
       Pdf.Flow.hr 2 Pdf.BLUE_PRIMARY 12,
       Pdf.Flow.para "The CredSuvidha logo features interlocking C and S letterforms with an upward growth arrow, symbolizing financial progress and trusted partnership. The navy blue represents trust and stability, while the gold represents prosperity and value." "BodyText",
       Pdf.Flow.spacer 1 12],
      [Pdf.Flow.spacer 1 12,
       Pdf.Flow.para "Logo Elements" "SubHeader",
       Pdf.Flow.table Pdf.elem_table,
       Pdf.Flow.spacer 1 14,
       Pdf.Flow.para "Usage Guidelines" "SubHeader",
       Pdf.Flow.table Pdf.dd_table,
       Pdf.Flow.pageBreak] ++ Pdf.story_page4 ++ Pdf.story_page5 ++ Pdf.story_page6 ++
        Pdf.story_page7 ++ Pdf.story_page8 ++ Pdf.story_page9 ++ Pdf.story_page10,
      rfl, rfl⟩
  · exact ⟨[Pptx.SlideOp.bg Pptx.BG_ALT] ++
      Pptx.add_accent_bar (Pptx.Inches 0) Pptx.BLUE_PRIMARY (Pptx.Pt 4),
      Pptx.add_footer_bar ++ Pptx.add_slide_number 3 12 ++ Pptx.logo_slide_intro,
      Pptx.logo_slide_tail,
      by simp [Pptx.build_logo_slide, List.append_assoc],
      by simp [Pptx.build_logo_slide, Pptx.add_logo_header, List.append_assoc]⟩

/-- C7 (counterexample): the claim says each generator aborts when the
brand-token file is absent or malformed; but the PPTX generator never
reads the token file, and its build succeeds with the token file absent
or malformed. -/
theorem c7_token_file_counterexample :
    (Pptx.run_pptx_generator TokenFile.absent true "October 2025").isOk = true ∧
    (Pptx.run_pptx_generator TokenFile.malformed true "October 2025").isOk = true :=
  ⟨rfl, rfl⟩

/-- C7 (amended): the PDF generator opens and JSON-parses
`brand-tokens.json` at module import time, before any output exists, so
an absent or malformed token file aborts its build with the underlying
read/parse failure; the PPTX generator does not read the token file at
all, and its build proceeds regardless of the token file's state. -/
theorem c7_token_file :
    (∀ (logo : Bool) (d : String),
      Pdf.run_pdf_generator TokenFile.absent logo d = .error BuildError.fileNotFound) ∧
    (∀ (logo : Bool) (d : String),
      Pdf.run_pdf_generator TokenFile.malformed logo d = .error BuildError.jsonDecode) ∧
    (∀ (tf : TokenFile) (logo : Bool) (d : String),
      Pptx.run_pptx_generator tf logo d = .ok (Pptx.build_presentation logo d)) :=
  ⟨fun _ _ => rfl, fun _ _ => rfl, fun _ _ _ => rfl⟩

/-- C9 (confirmed): the only run-dependent input of either build is the
formatted current date, and it only ever appears inside text payloads; so
two runs over identical inputs produce identical layout geometry — the
cover operations agree once text payloads are blanked, the page-frame
painter and the whole story are literally equal, and the two decks agree
slide by slide once text payloads are blanked, with equal slide
dimensions. -/
theorem c9_build_geometry_deterministic :
    ∀ (logo : Bool) (d1 d2 : String),
      ((Pdf.build_pdf logo d1).cover.map Pdf.CanvasOp.scrub =
        (Pdf.build_pdf logo d2).cover.map Pdf.CanvasOp.scrub) ∧
      ((Pdf.build_pdf logo d1).pageFrame = (Pdf.build_pdf logo d2).pageFrame) ∧
      ((Pdf.build_pdf logo d1).story = (Pdf.build_pdf logo d2).story) ∧
      ((Pptx.build_presentation logo d1).slides.map (fun s => s.map Pptx.SlideOp.scrub) =
        (Pptx.build_presentation logo d2).slides.map (fun s => s.map Pptx.SlideOp.scrub)) ∧
      ((Pptx.build_presentation logo d1).slide_width =
        (Pptx.build_presentation logo d2).slide_width) ∧
      ((Pptx.build_presentation logo d1).slide_height =
        (Pptx.build_presentation logo d2).slide_height) := by
  intro logo d1 d2
  cases logo <;> exact ⟨rfl, rfl, rfl, rfl, rfl, rfl⟩

/-- C10 (confirmed): the PDF generator's output is independent of the
token file's contents — the parsed `tokens` value is never read after
loading, so any two valid token files produce the same document. -/
theorem c10_pdf_token_independent :
    ∀ (t1 t2 : Json) (logo : Bool) (d : String),
      Pdf.run_pdf_generator (TokenFile.valid t1) logo d =
        Pdf.run_pdf_generator (TokenFile.valid t2) logo d :=
  fun _ _ _ _ => rfl

/-- C1 (counterexample): the claim says segment `i` has width
`round(W × f_i)` with the final stop absorbing the rounding remainder, so
that stops `[(blue, 0.5), (orange, 0.5)]` over width 581 yield widths
`[290, 291]`.  In fact the PPTX renderer truncates with `int()` and never
adjusts the final stop: at width 581 both segments get width 290, summing
to 580 ≠ 581; and the PDF renderer ignores the fractions entirely,
emitting two equal segments of width 581/2 = 290.5 — neither 290 nor
291. -/
theorem c1_gradient_tiling_counterexample :
    (Pptx.gradient_segments 80 0 581 40
        [(Pptx.BLUE_PRIMARY, 1 / 2), (Pptx.ACCENT_PRI, 1 / 2)] =
      [Pptx.SlideOp.shape "rect" 80 0 290 40 Pptx.BLUE_PRIMARY none,
       Pptx.SlideOp.shape "rect" 370 0 290 40 Pptx.ACCENT_PRI none]) ∧
    ((290 : ℚ) + 290 ≠ 581) ∧ ((290 : ℚ) ≠ 291) ∧
    ((Pdf.create_gradient_drawing ["#1a6ef5", "#f97316"] "Primary CTA" (some 581) 40).elems.get? 0 =
      some (Pdf.GElem.rect 0 16 (581 / 2) 40 (some (Pdf.HexColor "#1a6ef5")) none 0)) ∧
    ((Pdf.create_gradient_drawing ["#1a6ef5", "#f97316"] "Primary CTA" (some 581) 40).elems.get? 1 =
      some (Pdf.GElem.rect (581 / 2) 16 (581 / 2) 40 (some (Pdf.HexColor "#f97316")) none 0)) ∧
    ((581 : ℚ) / 2 ≠ 290) ∧ ((581 : ℚ) / 2 ≠ 291) := by
  have h : pyInt (581 * (1 / 2 : ℚ)) = 290 := by
    rw [pyInt, if_pos (by norm_num), Int.floor_eq_iff]
    norm_num
  refine ⟨?_, by norm_num, by norm_num, ?_, ?_, by norm_num, by norm_num⟩
  · simp only [Pptx.gradient_segments]
    rw [h]
    norm_num
  · simp [Pdf.create_gradient_drawing, List.enum, List.enumFrom]
  · simp [Pdf.create_gradient_drawing, List.enum, List.enumFrom]

/-- C1 (amended): the PPTX renderer emits one rectangle per stop of width
`int(W × f_i)` (truncation toward zero, not rounding), placed
left-to-right with each segment starting exactly where the previous one
ends (no gap or overlap between consecutive segments), and with no
final-stop adjustment — when the fractions are nonnegative and sum to 1
the widths sum to at most `W` and may fall short of it.  The PDF renderer
ignores the stop fractions: it emits `len(colors)` segments of equal
width `W / n` at `x = i · (W / n)`, which tile `W` exactly. -/
theorem c1_gradient_tiling :
    (∀ (cx y W hgt : ℚ) (stops : List (RGB × ℚ)),
      (Pptx.gradient_segments cx y W hgt stops).map Pptx.SlideOp.width_of =
        stops.map (fun s => ((pyInt (W * s.2) : ℤ) : ℚ))) ∧
    (∀ (cx y W hgt : ℚ) (stops : List (RGB × ℚ)),
      List.Chain' (fun a b => Pptx.SlideOp.left_of b =
          Pptx.SlideOp.left_of a + Pptx.SlideOp.width_of a)
        (Pptx.gradient_segments cx y W hgt stops)) ∧
    (∀ (cx y W hgt : ℚ) (stops : List (RGB × ℚ)),
      0 ≤ W → (∀ s ∈ stops, 0 ≤ s.2) → (stops.map (fun s => s.2)).sum = 1 →
      ((Pptx.gradient_segments cx y W hgt stops).map Pptx.SlideOp.width_of).sum ≤ W) ∧
    (∀ (W hgt : ℚ) (colors : List String) (label : String),
      (Pdf.create_gradient_drawing colors label (some W) hgt).elems.take colors.length =
        colors.enum.map (fun ic =>
          Pdf.GElem.rect ((ic.1 : ℚ) * (W / (colors.length : ℚ))) 16
            (W / (colors.length : ℚ)) hgt (some (Pdf.HexColor ic.2)) none 0)) ∧
    (∀ (W : ℚ) (n : ℕ), 0 < n → (n : ℚ) * (W / (n : ℚ)) = W) ∧
    (∀ (W : ℚ) (n i : ℕ),
      ((i : ℚ) + 1) * (W / (n : ℚ)) = (i : ℚ) * (W / (n : ℚ)) + W / (n : ℚ)) := by
  refine ⟨?_, ?_, ?_, ?_, ?_, ?_⟩
  · intro cx y W hgt stops
    induction stops generalizing cx with
    | nil => rfl
    | cons s rest ih => simp [Pptx.gradient_segments, Pptx.SlideOp.width_of, ih]
  · intro cx y W hgt stops
    induction stops generalizing cx with
    | nil => exact List.chain'_nil
    | cons s rest ih =>
        rw [Pptx.gradient_segments, List.chain'_cons']
        refine ⟨?_, ih _⟩
        intro b hb
        rcases rest with _ | ⟨s2, rest2⟩
        · rw [Pptx.gradient_segments] at hb
          simp at hb
        · rw [Pptx.gradient_segments] at hb
          simp at hb
          subst hb
          simp [Pptx.SlideOp.left_of, Pptx.SlideOp.width_of]
  · intro cx y W hgt stops hW hf hsum
    have key : ∀ (l : List (RGB × ℚ)), (∀ s ∈ l, 0 ≤ s.2) → ∀ (c : ℚ),
        ((Pptx.gradient_segments c y W hgt l).map Pptx.SlideOp.width_of).sum ≤
          W * (l.map (fun s => s.2)).sum := by
      intro l
      induction l with
      | nil => intro _ c; simp [Pptx.gradient_segments]
      | cons s rest ih =>
          intro hl c
          simp only [Pptx.gradient_segments, List.map_cons, List.sum_cons,
            Pptx.SlideOp.width_of]
          have h1 : ((pyInt (W * s.2) : ℤ) : ℚ) ≤ W * s.2 := by
            rw [pyInt, if_pos (mul_nonneg hW (hl s (List.mem_cons_self s rest)))]
            exact Int.floor_le _
          have h2 := ih (fun t ht => hl t (List.mem_cons_of_mem s ht))
            (c + ((pyInt (W * s.2) : ℤ) : ℚ))
          calc ((pyInt (W * s.2) : ℤ) : ℚ) +
                ((Pptx.gradient_segments (c + ((pyInt (W * s.2) : ℤ) : ℚ)) y W hgt rest).map
                  Pptx.SlideOp.width_of).sum
              ≤ W * s.2 + W * (rest.map (fun s => s.2)).sum := add_le_add h1 h2
            _ = W * (s.2 + (rest.map (fun s => s.2)).sum) := by ring
    calc ((Pptx.gradient_segments cx y W hgt stops).map Pptx.SlideOp.width_of).sum
        ≤ W * (stops.map (fun s => s.2)).sum := key stops hf cx
      _ = W := by rw [hsum]; ring
  · intro W hgt colors label
    simp only [Pdf.create_gradient_drawing, Option.getD]
    exact List.take_left' (by simp [List.enum_length])
  · intro W n hn
    field_simp
  · intro W n i
    ring

/-- Witness for C1: at width 581 with the Primary-CTA stops
`[(BLUE_PRIMARY, 1/2), (BLUE_BRIGHT, 1/2)]` (nonnegative fractions
summing to 1) the emitted PPTX widths sum to at most 581, and the PDF's
two equal segments tile 581 exactly. -/
theorem c1_gradient_tiling_witness :
    ((0 : ℚ) ≤ 581) ∧
    (([(Pptx.BLUE_PRIMARY, (1 : ℚ) / 2), (Pptx.BLUE_BRIGHT, 1 / 2)].map
        (fun s => s.2)).sum = 1) ∧
    (((Pptx.gradient_segments 80 0 581 40
        [(Pptx.BLUE_PRIMARY, 1 / 2), (Pptx.BLUE_BRIGHT, 1 / 2)]).map
          Pptx.SlideOp.width_of).sum ≤ 581) ∧
    ((0 : ℕ) < 2) ∧ (((2 : ℕ) : ℚ) * (581 / ((2 : ℕ) : ℚ)) = 581) := by
  refine ⟨by norm_num, by norm_num, ?_, by norm_num, c1_gradient_tiling.2.2.2.2.1 581 2 (by norm_num)⟩
  refine c1_gradient_tiling.2.2.1 80 0 581 40 _ (by norm_num) ?_ (by norm_num)
  intro s hs
  simp only [List.mem_cons, List.not_mem_nil, or_false] at hs
  rcases hs with rfl | rfl <;> norm_num

/-- C2 (counterexample): the claim says every grid/card layout pass
places item `i` at column `i mod C`, row `i div C` (reading order
left-to-right, top-to-bottom).  The gradients slide violates this: its
six cards fill column-major (`col = 0 if i < 3 else 1`, `row = i mod 3`),
so card 1 ("Hero / Header") sits below card 0 in the left column, not to
its right — its actual origin differs from the one the claimed formula
gives for `C = 2` with that pass's own cell size and gutters. -/
theorem c2_grid_layout_counterexample :
    (Pptx.grad_card_origin 1 =
      (Pptx.Inches 0.8, Pptx.Inches 1.65 + (Pptx.Inches 0.7 + Pptx.Inches 0.55))) ∧
    (Pptx.grid_origin (Pptx.Inches 0.8) (Pptx.Inches 1.65) (Pptx.Inches 5.8)
        (Pptx.Inches 0.7) (Pptx.Inches 0.3) (Pptx.Inches 0.55) 2 1 =
      (Pptx.Inches 0.8 + (Pptx.Inches 5.8 + Pptx.Inches 0.3), Pptx.Inches 1.65)) ∧
    (Pptx.grad_card_origin 1 ≠
      Pptx.grid_origin (Pptx.Inches 0.8) (Pptx.Inches 1.65) (Pptx.Inches 5.8)
        (Pptx.Inches 0.7) (Pptx.Inches 0.3) (Pptx.Inches 0.55) 2 1) ∧
    (Pptx.SlideOp.textbox (Pptx.grad_card_origin 1).1
        ((Pptx.grad_card_origin 1).2 + Pptx.Inches 0.7 + Pptx.Pt 2)
        (Pptx.Inches 5.8) (Pptx.Inches 0.2)
        "Hero / Header" 11 true false Pptx.NAVY_DARK "left" "Calibri" ∈
      Pptx.build_gradients_slide true) := by
  refine ⟨?_, ?_, ?_, ?_⟩
  · simp [Pptx.grad_card_origin, Prod.ext_iff]
  · simp [Pptx.grid_origin, Prod.ext_iff]
  · simp [Pptx.grad_card_origin, Pptx.grid_origin, Prod.ext_iff, Pptx.Inches]
    norm_num
  · unfold Pptx.build_gradients_slide Pptx.gradients_content
    repeat first | exact List.Mem.head _ | apply List.Mem.tail

/-- C2 (amended): every grid/card layout pass except the gradients slide
places item `i` at column `i mod C`, row `i div C`, at
`x = originX + col·(cellW+gutterX)`, `y = originY + row·(cellH+gutterY)`
— in particular the claimed 4-item scenario origins hold, the cell
assignment is injective (no two items share a cell) and successive
indices move one cell right or wrap to the start of the next row (reading
order); the brand-values slide's cards sit at exactly these grid origins.
The gradients slide alone fills column-major: card `i` (for the six
cards) goes to column `i div 3` and row `i mod 3`. -/
theorem c2_grid_layout :
    (Pptx.grid_origin 80 330 260 150 20 20 2 0 = (80, 330) ∧
     Pptx.grid_origin 80 330 260 150 20 20 2 1 = (360, 330) ∧
     Pptx.grid_origin 80 330 260 150 20 20 2 2 = (80, 500) ∧
     Pptx.grid_origin 80 330 260 150 20 20 2 3 = (360, 500)) ∧
    (∀ C i j : ℕ, Pptx.grid_cell C i = Pptx.grid_cell C j → i = j) ∧
    (∀ C i : ℕ, 0 < C → Pptx.grid_cell C (i + 1) =
      if i % C + 1 < C then (i % C + 1, i / C) else (0, i / C + 1)) ∧
    (∀ (ox oy cw ch gx gy : ℚ) (C i : ℕ),
      Pptx.grid_origin ox oy cw ch gx gy C i =
        (ox + ((Pptx.grid_cell C i).1 : ℚ) * (cw + gx),
         oy + ((Pptx.grid_cell C i).2 : ℚ) * (ch + gy))) ∧
    (∀ b : Bool,
      (Pptx.SlideOp.shape "rect"
        (Pptx.grid_origin (Pptx.Inches 0.8) (Pptx.Inches 1.65) (Pptx.Inches 5.8)
          (Pptx.Inches 2.3) (Pptx.Inches 0.3) (Pptx.Inches 0.25) 2 1).1
        (Pptx.grid_origin (Pptx.Inches 0.8) (Pptx.Inches 1.65) (Pptx.Inches 5.8)
          (Pptx.Inches 2.3) (Pptx.Inches 0.3) (Pptx.Inches 0.25) 2 1).2
        (Pptx.Inches 5.8) (Pptx.Inches 2.3) Pptx.WHITE
        (some (Pptx.BORDER, Pptx.Pt 0.5)) ∈ Pptx.build_brand_values_slide b) ∧
      (Pptx.SlideOp.shape "rect"
        (Pptx.grid_origin (Pptx.Inches 0.8) (Pptx.Inches 1.65) (Pptx.Inches 5.8)
          (Pptx.Inches 2.3) (Pptx.Inches 0.3) (Pptx.Inches 0.25) 2 2).1
        (Pptx.grid_origin (Pptx.Inches 0.8) (Pptx.Inches 1.65) (Pptx.Inches 5.8)
          (Pptx.Inches 2.3) (Pptx.Inches 0.3) (Pptx.Inches 0.25) 2 2).2
        (Pptx.Inches 5.8) (Pptx.Inches 2.3) Pptx.WHITE
        (some (Pptx.BORDER, Pptx.Pt 0.5)) ∈ Pptx.build_brand_values_slide b)) ∧
    (∀ i : ℕ, i < 6 → Pptx.grad_card_origin i =
      (Pptx.Inches 0.8 + ((i / 3 : ℕ) : ℚ) * (Pptx.Inches 5.8 + Pptx.Inches 0.3),
       Pptx.Inches 1.65 + ((i % 3 : ℕ) : ℚ) * (Pptx.Inches 0.7 + Pptx.Inches 0.55))) := by
  refine ⟨⟨?_, ?_, ?_, ?_⟩, ?_, ?_, ?_, ?_, ?_⟩
  · simp [Pptx.grid_origin, Prod.ext_iff]
  · simp [Pptx.grid_origin, Prod.ext_iff]
    norm_num
  · simp [Pptx.grid_origin, Prod.ext_iff]
    norm_num
  · simp [Pptx.grid_origin, Prod.ext_iff]
    norm_num
  · intro C i j h
    unfold Pptx.grid_cell at h
    rw [Prod.mk.injEq] at h
    calc i = C * (i / C) + i % C := (Nat.div_add_mod i C).symm
      _ = C * (j / C) + j % C := by rw [h.1, h.2]
      _ = j := Nat.div_add_mod j C
  · intro C i hC
    have hmod := Nat.mod_add_div i C
    have hlt := Nat.mod_lt i hC
    by_cases h : i % C + 1 < C
    · rw [if_pos h]
      have hu : (i + 1) / C = i / C ∧ (i + 1) % C = i % C + 1 :=
        (Nat.div_mod_unique hC).mpr ⟨by omega, h⟩
      unfold Pptx.grid_cell
      rw [hu.1, hu.2]
    · rw [if_neg h]
      have hC1 : i % C + 1 = C := by omega
      have hexp : C * (i / C + 1) = C * (i / C) + C := by ring
      have hu : (i + 1) / C = i / C + 1 ∧ (i + 1) % C = 0 :=
        (Nat.div_mod_unique hC).mpr ⟨by omega, hC⟩
      unfold Pptx.grid_cell
      rw [hu.1, hu.2]
  · intro ox oy cw ch gx gy C i
    rfl
  · intro b
    constructor <;> cases b <;>
      (unfold Pptx.build_brand_values_slide Pptx.brand_values_content
        Pptx.brand_values_cards;
       repeat first | exact List.Mem.head _ | apply List.Mem.tail)
  · intro i hi
    interval_cases i <;> simp [Pptx.grad_card_origin, Prod.ext_iff]

/-- Witness for C2: the reading-order step at `C = 2`, `i = 3` wraps to
the start of row 2; cell injectivity applied at `C = 2`, `i = j = 5`; and
the gradients-slide column-major formula instantiated at card 4. -/
theorem c2_grid_layout_witness :
    ((0 : ℕ) < 2 ∧ Pptx.grid_cell 2 (3 + 1) =
      (if 3 % 2 + 1 < 2 then (3 % 2 + 1, 3 / 2) else (0, 3 / 2 + 1))) ∧
    ((4 : ℕ) < 6 ∧ Pptx.grad_card_origin 4 =
      (Pptx.Inches 0.8 + ((4 / 3 : ℕ) : ℚ) * (Pptx.Inches 5.8 + Pptx.Inches 0.3),
       Pptx.Inches 1.65 + ((4 % 3 : ℕ) : ℚ) * (Pptx.Inches 0.7 + Pptx.Inches 0.55))) ∧
    (5 : ℕ) = 5 :=
  ⟨⟨by decide, c2_grid_layout.2.2.1 2 3 (by decide)⟩,
   ⟨by decide, c2_grid_layout.2.2.2.2.2 4 (by decide)⟩,
   c2_grid_layout.2.1 2 5 5 rfl⟩

/-- C6 (counterexample): the claim says every non-cover page/slide in
both generators carries a running page index out of a known total.  The
PDF footer shows only "Page n" with no total (no "n/total" form: the
rendered string for page 2 is "Page 2" and contains no slash), and the
PPTX thank-you slide — a non-cover slide — carries no slide number and no
footer texts at all. -/
theorem c6_page_frame_counterexample :
    ((Pdf.draw_header_footer true 2).any (fun o =>
      decide (Pdf.CanvasOp.textOf o = some "Page 2")) = true) ∧
    (("Page 2").data.contains '/' = false) ∧
    ((Pptx.build_thankyou_slide true).all (fun o =>
      decide (Pptx.SlideOp.textOf o ≠ some "12/12") &&
      decide (Pptx.SlideOp.textOf o ≠
        some "CredSuvidha — Trusted Partner. Swift Solutions.") &&
      decide (Pptx.SlideOp.textOf o ≠ some "www.credsuvidha.com")) = true) :=
  ⟨rfl, by decide, rfl⟩

/-- C6 (amended): every non-cover PDF page carries the recurring frame
with the left-aligned tagline, the right-aligned domain and the running
page index rendered as "Page n" (with no total); PPTX slides 2 through 11
carry the frame — footer bar immediately followed by the slide number
"n/12" — while the final thank-you slide (slide 12) carries no footer
texts and no slide number. -/
theorem c6_page_frame :
    (∀ (b : Bool) (n : ℕ),
      (Pdf.CanvasOp.text (0.3 * Pdf.inch) (0.15 * Pdf.inch) "Helvetica" 7 Pdf.BLUE_LIGHT
        "CredSuvidha — Trusted Partner. Swift Solutions." ∈ Pdf.draw_header_footer b n) ∧
      (Pdf.CanvasOp.textRight (Pdf.PAGE_WIDTH - 0.3 * Pdf.inch) (0.15 * Pdf.inch)
        "Helvetica" 7 Pdf.LOGO_GOLD "www.credsuvidha.com" ∈ Pdf.draw_header_footer b n) ∧
      (Pdf.CanvasOp.textCentred (Pdf.PAGE_WIDTH / 2) (0.15 * Pdf.inch) "Helvetica" 7
        Pdf.WHITE (s!"Page {n}") ∈ Pdf.draw_header_footer b n)) ∧
    (∀ n t : ℕ, (Pptx.add_slide_number n t).map Pptx.SlideOp.textOf = [some (s!"{n}/{t}")]) ∧
    (∀ b : Bool,
      (∃ pre post, Pptx.build_brand_overview b =
        pre ++ (Pptx.add_footer_bar ++ Pptx.add_slide_number 2 12) ++ post) ∧
      (∃ pre post, Pptx.build_logo_slide b =
        pre ++ (Pptx.add_footer_bar ++ Pptx.add_slide_number 3 12) ++ post) ∧
      (∃ pre post, Pptx.build_color_palette_slide b =
        pre ++ (Pptx.add_footer_bar ++ Pptx.add_slide_number 4 12) ++ post) ∧
      (∃ pre post, Pptx.build_gradients_slide b =
        pre ++ (Pptx.add_footer_bar ++ Pptx.add_slide_number 5 12) ++ post) ∧
      (∃ pre post, Pptx.build_typography_slide b =
        pre ++ (Pptx.add_footer_bar ++ Pptx.add_slide_number 6 12) ++ post) ∧
      (∃ pre post, Pptx.build_buttons_ui_slide b =
        pre ++ (Pptx.add_footer_bar ++ Pptx.add_slide_number 7 12) ++ post) ∧
      (∃ pre post, Pptx.build_brand_values_slide b =
        pre ++ (Pptx.add_footer_bar ++ Pptx.add_slide_number 8 12) ++ post) ∧
      (∃ pre post, Pptx.build_contact_compliance_slide b =
        pre ++ (Pptx.add_footer_bar ++ Pptx.add_slide_number 9 12) ++ post) ∧
      (∃ pre post, Pptx.build_technical_slide b =
        pre ++ (Pptx.add_footer_bar ++ Pptx.add_slide_number 10 12) ++ post) ∧
      (∃ pre post, Pptx.build_summary_slide b =
        pre ++ (Pptx.add_footer_bar ++ Pptx.add_slide_number 11 12) ++ post)) ∧
    (∀ b : Bool, (Pptx.build_thankyou_slide b).all (fun o =>
      decide (Pptx.SlideOp.textOf o ≠ some "12/12") &&
      decide (Pptx.SlideOp.textOf o ≠
        some "CredSuvidha — Trusted Partner. Swift Solutions.") &&
      decide (Pptx.SlideOp.textOf o ≠ some "www.credsuvidha.com")) = true) := by
  refine ⟨?_, fun n t => rfl, ?_, ?_⟩
  · intro b n
    refine ⟨?_, ?_, ?_⟩ <;> cases b <;>
      (unfold Pdf.draw_header_footer;
       repeat first | exact List.Mem.head _ | apply List.Mem.tail)
  · intro b
    refine ⟨?_, ?_, ?_, ?_, ?_, ?_, ?_, ?_, ?_, ?_⟩
    · exact ⟨[Pptx.SlideOp.bg Pptx.BG_ALT] ++
        Pptx.add_accent_bar (Pptx.Inches 0) Pptx.BLUE_PRIMARY (Pptx.Pt 4) ++
        Pptx.add_logo_header b, Pptx.brand_overview_content,
        by simp [Pptx.build_brand_overview, List.append_assoc]⟩
    · exact ⟨[Pptx.SlideOp.bg Pptx.BG_ALT] ++
        Pptx.add_accent_bar (Pptx.Inches 0) Pptx.BLUE_PRIMARY (Pptx.Pt 4) ++
        Pptx.add_logo_header b,
        Pptx.logo_slide_intro ++ (if b then Pptx.pptx_logo_showcase else []) ++
          Pptx.logo_slide_tail,
        by simp [Pptx.build_logo_slide, List.append_assoc]⟩
    · exact ⟨[Pptx.SlideOp.bg Pptx.BG_ALT] ++
        Pptx.add_accent_bar (Pptx.Inches 0) Pptx.BLUE_PRIMARY (Pptx.Pt 4) ++
        Pptx.add_logo_header b, Pptx.color_palette_content,
        by simp [Pptx.build_color_palette_slide, List.append_assoc]⟩
    · exact ⟨[Pptx.SlideOp.bg Pptx.BG_ALT] ++
        Pptx.add_accent_bar (Pptx.Inches 0) Pptx.BLUE_PRIMARY (Pptx.Pt 4) ++
        Pptx.add_logo_header b, Pptx.gradients_content,
        by simp [Pptx.build_gradients_slide, List.append_assoc]⟩
    · exact ⟨[Pptx.SlideOp.bg Pptx.BG_ALT] ++
        Pptx.add_accent_bar (Pptx.Inches 0) Pptx.BLUE_PRIMARY (Pptx.Pt 4) ++
        Pptx.add_logo_header b, Pptx.typography_content,
        by simp [Pptx.build_typography_slide, List.append_assoc]⟩
    · exact ⟨[Pptx.SlideOp.bg Pptx.BG_ALT] ++
        Pptx.add_accent_bar (Pptx.Inches 0) Pptx.BLUE_PRIMARY (Pptx.Pt 4) ++
        Pptx.add_logo_header b, Pptx.buttons_ui_content,
        by simp [Pptx.build_buttons_ui_slide, List.append_assoc]⟩
    · exact ⟨[Pptx.SlideOp.bg Pptx.BG_ALT] ++
        Pptx.add_accent_bar (Pptx.Inches 0) Pptx.BLUE_PRIMARY (Pptx.Pt 4) ++
        Pptx.add_logo_header b, Pptx.brand_values_content,
        by simp [Pptx.build_brand_values_slide, List.append_assoc]⟩
    · exact ⟨[Pptx.SlideOp.bg Pptx.BG_ALT] ++
        Pptx.add_accent_bar (Pptx.Inches 0) Pptx.BLUE_PRIMARY (Pptx.Pt 4) ++
        Pptx.add_logo_header b, Pptx.contact_compliance_content,
        by simp [Pptx.build_contact_compliance_slide, List.append_assoc]⟩
    · exact ⟨[Pptx.SlideOp.bg Pptx.BG_ALT] ++
        Pptx.add_accent_bar (Pptx.Inches 0) Pptx.BLUE_PRIMARY (Pptx.Pt 4) ++
        Pptx.add_logo_header b, Pptx.technical_content,
        by simp [Pptx.build_technical_slide, List.append_assoc]⟩
    · exact ⟨[Pptx.SlideOp.bg Pptx.BLUE_TINT] ++
        Pptx.add_accent_bar (Pptx.Inches 0) Pptx.NAVY_DARK (Pptx.Pt 5) ++
        Pptx.add_logo_header b, Pptx.summary_content,
        by simp [Pptx.build_summary_slide, List.append_assoc]⟩
  · intro b
    cases b <;> rfl

/-- C8 (counterexample): the claim says malformed gradient stop fractions
make the build fail fast with a configuration error.  In fact the PPTX
segment renderer performs no validation: with fractions `[0.4, 0.4]`
(summing to 0.8, not 1) it returns a normal two-segment result whose
widths sum to 464 < 581, silently leaving the right edge uncovered
instead of raising any error. -/
theorem c8_no_config_validation_counterexample :
    ((Pptx.gradient_segments 0 0 581 40
        [(Pptx.BLUE_PRIMARY, 2 / 5), (Pptx.ACCENT_PRI, 2 / 5)]).length = 2) ∧
    (([(Pptx.BLUE_PRIMARY, (2 : ℚ) / 5), (Pptx.ACCENT_PRI, 2 / 5)].map
        (fun s => s.2)).sum ≠ 1) ∧
    (((Pptx.gradient_segments 0 0 581 40
        [(Pptx.BLUE_PRIMARY, 2 / 5), (Pptx.ACCENT_PRI, 2 / 5)]).map
          Pptx.SlideOp.width_of).sum = 464) ∧
    ((464 : ℚ) < 581) := by
  have h : pyInt (581 * (2 / 5 : ℚ)) = 232 := by
    rw [pyInt, if_pos (by norm_num), Int.floor_eq_iff]
    norm_num
  refine ⟨rfl, by norm_num, ?_, by norm_num⟩
  simp only [Pptx.gradient_segments]
  rw [h]
  norm_num [Pptx.SlideOp.width_of]

/-- C8 (amended): no layout-configuration validation exists.  The grid
passes use hardcoded positive literal column counts, the gradient
renderer accepts any stop fractions without checking their sum (it is a
total function emitting exactly one segment per stop, never an error),
zero grid items produce no output and no error, and the PPTX build as a
whole never fails. -/
theorem c8_no_config_validation :
    (∀ (cx y W hgt : ℚ) (stops : List (RGB × ℚ)),
      (Pptx.gradient_segments cx y W hgt stops).length = stops.length) ∧
    (Pptx.brand_values_cards [] = []) ∧
    (∀ (tf : TokenFile) (logo : Bool) (d : String),
      (Pptx.run_pptx_generator tf logo d).isOk = true) := by
  refine ⟨?_, rfl, fun _ _ _ => rfl⟩
  intro cx y W hgt stops
  induction stops generalizing cx with
  | nil => rfl
  | cons s rest ih => simp [Pptx.gradient_segments, ih]

end Brandkit
